import Mathlib

/-!
Verification development for the ArenaGenerator plugin
(Source/ArenaGenerator/Private/BaseArenaGenerator.cpp and
Source/ArenaGenerator/Public/ArenaGeneratorTypes.h).

Conventions of the shallow embedding:
* C++ float arithmetic is modelled with exact real numbers; the divergence
  from IEEE rounding is noted where a claim depends on magnitudes, and
  every counterexample is chosen far away from rounding boundaries.
* C++ int32 arithmetic is modelled with Int, using Int.tdiv for the C++
  truncating integer division.  All divisions reached by the theorems
  below have nonnegative operands, where truncating, flooring and
  Euclidean division agree.
* Unreal FVector and FRotator become FVec3 and FRot below; FVector
  supports componentwise +, -, * and scaling by a float on either side.
* Engine containers (TArray) become lists; an instanced-static-mesh
  component becomes an entry in a per-group bucket counter, and the act
  of AddInstance / SpawnActor is recorded in an ordered output list of
  PlacementTransform values, which is the observable output of a
  generation pass.
* Error logging (ArenaGenLog_Error) is modelled as a counter in the
  state; informational logs are not modelled.
-/

namespace ArenaGen

/-- Three-component float vector (Unreal FVector), with real components. -/
@[ext] structure FVec3 where
  x : ℝ
  y : ℝ
  z : ℝ

instance : Add FVec3 := ⟨fun a b => ⟨a.x + b.x, a.y + b.y, a.z + b.z⟩⟩

instance : Sub FVec3 := ⟨fun a b => ⟨a.x - b.x, a.y - b.y, a.z - b.z⟩⟩

instance : Neg FVec3 := ⟨fun a => ⟨-a.x, -a.y, -a.z⟩⟩

instance : Mul FVec3 := ⟨fun a b => ⟨a.x * b.x, a.y * b.y, a.z * b.z⟩⟩

instance : HMul FVec3 ℝ FVec3 := ⟨fun a r => ⟨a.x * r, a.y * r, a.z * r⟩⟩

instance : HMul ℝ FVec3 FVec3 := ⟨fun r a => ⟨r * a.x, r * a.y, r * a.z⟩⟩

@[simp] theorem FVec3.add_x (a b : FVec3) : (a + b).x = a.x + b.x := rfl

@[simp] theorem FVec3.add_y (a b : FVec3) : (a + b).y = a.y + b.y := rfl

@[simp] theorem FVec3.add_z (a b : FVec3) : (a + b).z = a.z + b.z := rfl

@[simp] theorem FVec3.sub_x (a b : FVec3) : (a - b).x = a.x - b.x := rfl

@[simp] theorem FVec3.sub_y (a b : FVec3) : (a - b).y = a.y - b.y := rfl

@[simp] theorem FVec3.sub_z (a b : FVec3) : (a - b).z = a.z - b.z := rfl

@[simp] theorem FVec3.mul_x (a b : FVec3) : (a * b).x = a.x * b.x := rfl

@[simp] theorem FVec3.mul_y (a b : FVec3) : (a * b).y = a.y * b.y := rfl

@[simp] theorem FVec3.mul_z (a b : FVec3) : (a * b).z = a.z * b.z := rfl

@[simp] theorem FVec3.smulR_x (a : FVec3) (r : ℝ) : (a * r).x = a.x * r := rfl

@[simp] theorem FVec3.smulR_y (a : FVec3) (r : ℝ) : (a * r).y = a.y * r := rfl

@[simp] theorem FVec3.smulR_z (a : FVec3) (r : ℝ) : (a * r).z = a.z * r := rfl

@[simp] theorem FVec3.smulL_x (r : ℝ) (a : FVec3) : (r * a).x = r * a.x := rfl

@[simp] theorem FVec3.smulL_y (r : ℝ) (a : FVec3) : (r * a).y = r * a.y := rfl

@[simp] theorem FVec3.smulL_z (r : ℝ) (a : FVec3) : (r * a).z = r * a.z := rfl

/-- Rotator (Unreal FRotator): pitch, yaw, roll in degrees. -/
@[ext] structure FRot where
  pitch : ℝ
  yaw : ℝ
  roll : ℝ

/-- EArenaBuildOrderRules from ArenaGeneratorTypes.h. -/
inductive EArenaBuildOrderRules where
  | GridLeadsByDimensions
  | GridLeadsByRadius
  | PolygonLeadByDimensions
  | PolygonLeadByRadius
deriving DecidableEq

/-- EOriginPlacementType from ArenaGeneratorTypes.h. -/
inductive EOriginPlacementType where
  | XY_Positive
  | XY_Negative
  | X_Positive_Y_Negative
  | X_Negative_Y_Positive
  | Center
deriving DecidableEq

/-- EArenaSectionType from ArenaGeneratorTypes.h. -/
inductive EArenaSectionType where
  | HorizontalGrid
  | Polygon
deriving DecidableEq

/-- EPlacementOrientationRule from ArenaGeneratorTypes.h. -/
inductive EPlacementOrientationRule where
  | NoRule
  | RotateByYP
  | RotateYawRandomly
deriving DecidableEq

/-- ETypeToPlace from ArenaGeneratorTypes.h. -/
inductive ETypeToPlace where
  | StaticMeshes
  | Actors
deriving DecidableEq

/-- FArenaMesh: origin placement plus whether the UStaticMesh pointer is
non-null (the only property of the asset the placement logic inspects). -/
structure FArenaMesh where
  OriginType : EOriginPlacementType
  MeshValid : Bool

/-- FArenaMeshGroupConfig from ArenaGeneratorTypes.h. -/
structure FArenaMeshGroupConfig where
  MeshDimensions : FVec3
  MeshScale : FVec3
  GroupMeshes : List FArenaMesh

/-- FArenaActorConfig from ArenaGeneratorTypes.h; spawnable classes are
identified by opaque numeric ids. -/
structure FArenaActorConfig where
  ActorDimensions : FVec3
  ActorScale : FVec3
  ClassesToSpawn : List Nat

/-- FArenaSectionBuildRules from ArenaGeneratorTypes.h. -/
structure FArenaSectionBuildRules where
  SectionType : EArenaSectionType
  SectionAmount : Int
  AssetToPlace : ETypeToPlace
  ObjectGroupId : Int
  bUpdatesOriginOffsetHeight : Bool
  DefaultRotation : FRot
  RotationRule : EPlacementOrientationRule
  YawPossibilities : Int
  bWarpPlacement : Bool
  WarpRange : FVec3
  WarpConcavityStrength : ℝ
  InitOffsetByWidthScalar : ℝ
  OffsetByWidthIncrement : ℝ
  InitOffsetByHeightScalar : ℝ
  OffsetByHeightIncrement : ℝ

/-- FArenaSectionTargets from ArenaGeneratorTypes.h. -/
structure FArenaSectionTargets where
  TargetInscribedRadius : ℝ
  TargetPolygonSides : Int
  TargetTilesPerSide : Int
  TargetGridDimensions : Int

/-- FArenaSection from ArenaGeneratorTypes.h. -/
structure FArenaSection where
  SectionBuildOrderRules : EArenaBuildOrderRules
  Targets : FArenaSectionTargets
  BuildRules : List FArenaSectionBuildRules

/-- FMath::Clamp on int32: (X < Min) ? Min : (X < Max) ? X : Max. -/
def iclamp (v lo hi : Int) : Int :=
  if v < lo then lo else if v < hi then v else hi

/-- FMath::Clamp on float. -/
noncomputable def fclamp (v lo hi : ℝ) : ℝ :=
  if v < lo then lo else if v < hi then v else hi

/-- FMath::Lerp(A, B, Alpha) = A + Alpha * (B - A). -/
def flerp (a b t : ℝ) : ℝ := a + t * (b - a)

/-- FMath::DegreesToRadians. -/
noncomputable def deg2rad (d : ℝ) : ℝ := d * (Real.pi / 180)

/-- ABaseArenaGenerator::CalculateOpposite (BaseArenaGenerator.cpp:716). -/
noncomputable def CalculateOpposite (length angle : ℝ) : ℝ :=
  length * Real.cos (deg2rad angle)

/-- ABaseArenaGenerator::CalculateAdjacent (BaseArenaGenerator.cpp:721). -/
noncomputable def CalculateAdjacent (length angle : ℝ) : ℝ :=
  length * Real.sin (deg2rad angle)

/-- ABaseArenaGenerator::ForwardVectorFromYaw (BaseArenaGenerator.cpp:726). -/
noncomputable def ForwardVectorFromYaw (yaw : ℝ) : FVec3 :=
  ⟨Real.cos (deg2rad yaw), Real.sin (deg2rad yaw), 0⟩

/-- FRotationMatrix(FRotator(0, yaw, 0)).GetScaledAxis(EAxis::Y): the right
vector of a pure-yaw rotation, (-sin yaw, cos yaw, 0). -/
noncomputable def RightVectorFromYaw (yaw : ℝ) : FVec3 :=
  ⟨-Real.sin (deg2rad yaw), Real.cos (deg2rad yaw), 0⟩

/-- ABaseArenaGenerator::OriginOffsetScalar (BaseArenaGenerator.cpp:857). -/
def OriginOffsetScalar (t : EOriginPlacementType) : FVec3 :=
  match t with
  | .XY_Positive => ⟨0.5, 0.5, 0⟩
  | .XY_Negative => ⟨-0.5, -0.5, 0⟩
  | .X_Positive_Y_Negative => ⟨0.5, -0.5, 0⟩
  | .X_Negative_Y_Positive => ⟨-0.5, 0.5, 0⟩
  | .Center => ⟨0, 0, 0⟩

/-- ABaseArenaGenerator::OffsetMeshToCenter (BaseArenaGenerator.cpp:898). -/
noncomputable def OffsetMeshToCenter (t : EOriginPlacementType)
    (meshSize : FVec3) (angle : ℝ) : FVec3 :=
  if t = EOriginPlacementType.Center then ⟨0, 0, 0⟩
  else
    let cosTheta := Real.cos (deg2rad angle)
    let sinTheta := Real.sin (deg2rad angle)
    let initialCenter := OriginOffsetScalar t * meshSize
    let rotatedCenter : FVec3 :=
      ⟨initialCenter.x * cosTheta - initialCenter.y * sinTheta,
       initialCenter.x * sinTheta + initialCenter.y * cosTheta, 0⟩
    initialCenter - rotatedCenter

/-- ABaseArenaGenerator::PlacementWarpingConcavity (BaseArenaGenerator.cpp:880).
Both index distances are normalised by RowMidpoint, exactly as in the
source. -/
noncomputable def PlacementWarpingConcavity (colMidpoint rowMidpoint col row : Int)
    (concavityStrength : ℝ) (warpDirection : FVec3) : FVec3 :=
  let concaveWarp := concavityStrength *
    fclamp (flerp 0 1 (fclamp ((|col - colMidpoint| : ℤ) / (rowMidpoint : ℝ)) 0 1) *
      flerp 0 1 (fclamp ((|row - rowMidpoint| : ℤ) / (rowMidpoint : ℝ)) 0 1)) 0 1
  warpDirection * concaveWarp

/-!
Seeded random stream.  Modelled from the spec: the stream object itself
(FRandomStream) is engine code that is not part of this repository; the
spec (section 5) requires a shared, mutable, sequential, seed-deterministic
stream.  The model uses the published Unreal generator: MutateSeed is the
linear congruential step on 32 bits, GetFraction returns the low 23 bits
of the mutated seed divided by two to the 23, RandRange(lo, hi) draws an
inclusive integer via min(trunc(fraction * range), range - 1), and
FRandRange(lo, hi) returns lo + (hi - lo) * fraction.  The float product
fraction * range is modelled exactly.
-/

/-- FRandomStream::MutateSeed: seed := seed * 196314165 + 907633515 on 32
bits. -/
def mutateSeed (s : Nat) : Nat := (s * 196314165 + 907633515) % 4294967296

/-- Low 23 bits of a seed, the mantissa bits used by GetFraction. -/
def fracNum (s : Nat) : Nat := s % 8388608

/-- FRandomStream::GetFraction of a (already mutated) seed, as a real. -/
noncomputable def streamFraction (s : Nat) : ℝ := (fracNum s : ℝ) / 8388608

/-- FRandomStream::RandRange(lo, hi): inclusive integer draw; returns the
value together with the mutated seed. -/
def sRandRange (s : Nat) (lo hi : Int) : Int × Nat :=
  let s2 := mutateSeed s
  let range := hi - lo + 1
  if 0 < range then
    (lo + Int.ofNat (min (fracNum s2 * range.toNat / 8388608) (range.toNat - 1)), s2)
  else (lo, s2)

/-- FRandomStream::FRandRange(lo, hi): continuous draw; returns the value
together with the mutated seed. -/
noncomputable def sFRandRange (s : Nat) (lo hi : ℝ) : ℝ × Nat :=
  let s2 := mutateSeed s
  (lo + (hi - lo) * streamFraction s2, s2)

/-- ABaseArenaGenerator::PlacementWarpingDirectional (BaseArenaGenerator.cpp:890):
three FRandRange draws along X, Y, Z of the ranges (the draw order within
the C++ expression is fixed here as X then Y then Z). -/
noncomputable def PlacementWarpingDirectional (s : Nat) (offsetRanges : FVec3)
    (dirFV dirRV : FVec3) : FVec3 × Nat :=
  let a := sFRandRange s (offsetRanges.x * -1) offsetRanges.x
  let b := sFRandRange a.2 (offsetRanges.y * -1) offsetRanges.y
  let c := sFRandRange b.2 (offsetRanges.z * -1) offsetRanges.z
  (a.1 * dirFV + b.1 * dirRV + ⟨0, 0, c.1⟩, c.2)

end ArenaGen

namespace ArenaGen

/-- Payload of one placement request handed to the sink: either an
instanced-static-mesh add (bucket and mesh index) or an actor spawn
(class id). -/
inductive PlacePayload where
  | mesh (reRouteIdx meshIdx : Nat)
  | actor (classId : Nat)
deriving DecidableEq

/-- One placement request (rotation, location, scale, payload), the output
unit of a generation pass. -/
@[ext] structure PlacementTransform where
  rot : FRot
  loc : FVec3
  scale : FVec3
  payload : PlacePayload

/-- Static configuration of ABaseArenaGenerator: the mesh/actor catalogs,
the section list and the editor-set limits.  Immutable during a pass. -/
structure ArenaConfig where
  MeshGroups : List FArenaMeshGroupConfig
  ActorGroups : List FArenaActorConfig
  SectionList : List FArenaSection
  ArenaPlacementOnActor : EOriginPlacementType
  MaxSides : Int
  MaxTilesPerSideRow : Int

/-- Mutable state of ABaseArenaGenerator across a generation pass: the
seeded stream, the accumulating session fields, the derived geometry and
the outputs already handed to the sink. -/
@[ext] structure ArenaState where
  streamSeed : Nat
  TotalInstances : Int
  CurrentBOR : EArenaBuildOrderRules
  OriginOffset : FVec3
  PreviousMeshSize : FVec3
  PreviousTilesPerSide : Int
  PreviousLastPosition : FVec3
  FocusGridIndex : Int
  FocusPolygonIndex : Int
  InscribedRadius : ℝ
  Apothem : ℝ
  InteriorAngle : ℝ
  ExteriorAngle : ℝ
  SideLength : ℝ
  ArenaSides : Int
  ArenaDimensions : Int
  TilesPerArenaSide : Int
  UsedGroupIndices : List Int
  MeshInstanceBuckets : List Nat
  SpawnedActors : List Nat
  emitted : List PlacementTransform
  errors : Nat

/-- MeshGroups[i] with the C++ default-constructed group as out-of-range
fallback (the C++ access is unchecked; every theorem below stays in
range). -/
def getMG (cfg : ArenaConfig) (i : Int) : FArenaMeshGroupConfig :=
  cfg.MeshGroups.getD i.toNat ⟨⟨500, 500, 500⟩, ⟨1, 1, 1⟩, []⟩

/-- ActorGroups[i] with the C++ default-constructed group as out-of-range
fallback. -/
def getAG (cfg : ArenaConfig) (i : Int) : FArenaActorConfig :=
  cfg.ActorGroups.getD i.toNat ⟨⟨100, 100, 100⟩, ⟨1, 1, 1⟩, []⟩

/-- The focus-index scan of CalculateSectionParameters
(BaseArenaGenerator.cpp:149): ObjectGroupId of the first build rule of the
given section type, if any. -/
def findFocus : List FArenaSectionBuildRules → EArenaSectionType → Option Int
  | [], _ => none
  | r :: rs, t =>
      if r.SectionType = t then some r.ObjectGroupId else findFocus rs t

/-- ABaseArenaGenerator::WipeArena (BaseArenaGenerator.cpp:81): destroys
all emitted placements and spawned actors and resets the session fields.
It does NOT touch the seeded stream (streamSeed) and does not touch the
derived geometry fields (those are only recomputed by the deriver). -/
def wipeArena (st : ArenaState) : ArenaState :=
  { st with
    UsedGroupIndices := []
    MeshInstanceBuckets := []
    SpawnedActors := []
    emitted := []
    TotalInstances := 0
    CurrentBOR := EArenaBuildOrderRules.PolygonLeadByRadius
    OriginOffset := ⟨0, 0, 0⟩
    PreviousMeshSize := ⟨0, 0, 0⟩
    PreviousTilesPerSide := 0
    PreviousLastPosition := ⟨0, 0, 0⟩
    FocusGridIndex := 0
    FocusPolygonIndex := 0 }

/-- ABaseArenaGenerator::CalculateSectionParameters
(BaseArenaGenerator.cpp:132).  With an empty mesh-group catalog it only
reports an error; otherwise it resets OriginOffset, derives the common
angle values (InteriorAngle with C++ integer division), performs the
focus-index scan, and fills the derived geometry according to the build
order rule of the section. -/
noncomputable def calcSectionParameters (cfg : ArenaConfig) (sec : FArenaSection)
    (st : ArenaState) : ArenaState :=
  match cfg.MeshGroups with
  | [] => { st with errors := st.errors + 1 }
  | _ :: _ =>
    let arenaSides := iclamp sec.Targets.TargetPolygonSides 3 cfg.MaxSides
    let interior : ℝ := ((Int.tdiv ((arenaSides - 2) * 180) arenaSides : ℤ) : ℝ)
    let exterior : ℝ := 360 / (arenaSides : ℝ)
    let fg := (findFocus sec.BuildRules EArenaSectionType.HorizontalGrid).getD st.FocusGridIndex
    let fp := (findFocus sec.BuildRules EArenaSectionType.Polygon).getD st.FocusPolygonIndex
    let gx := (getMG cfg fg).MeshDimensions.x
    let px := (getMG cfg fp).MeshDimensions.x
    match sec.SectionBuildOrderRules with
    | .GridLeadsByDimensions =>
      let dims := sec.Targets.TargetGridDimensions
      let radius := gx * ((dims - 1 : ℤ) : ℝ) * 0.5
      let side := 2 * CalculateOpposite radius (interior / 2)
      { st with
        OriginOffset := ⟨0, 0, 0⟩
        ArenaSides := arenaSides
        InteriorAngle := interior
        ExteriorAngle := exterior
        FocusGridIndex := fg
        FocusPolygonIndex := fp
        CurrentBOR := sec.SectionBuildOrderRules
        ArenaDimensions := dims
        InscribedRadius := radius
        SideLength := side
        TilesPerArenaSide := iclamp (Int.floor (side / px)) 1 cfg.MaxTilesPerSideRow
        Apothem := |CalculateAdjacent radius (interior / 2)| }
    | .GridLeadsByRadius =>
      let dims : Int :=
        if sec.Targets.TargetInscribedRadius / gx > 2 then
          Int.floor (sec.Targets.TargetInscribedRadius / gx) else 2
      let radius := gx * (dims : ℝ) * 0.5
      let side := 2 * CalculateOpposite radius (interior / 2)
      { st with
        OriginOffset := ⟨0, 0, 0⟩
        ArenaSides := arenaSides
        InteriorAngle := interior
        ExteriorAngle := exterior
        FocusGridIndex := fg
        FocusPolygonIndex := fp
        CurrentBOR := sec.SectionBuildOrderRules
        ArenaDimensions := dims
        InscribedRadius := radius
        SideLength := side
        TilesPerArenaSide := iclamp (Int.floor (side / px)) 1 cfg.MaxTilesPerSideRow
        Apothem := |CalculateAdjacent radius (interior / 2)| }
    | .PolygonLeadByDimensions =>
      let tiles := sec.Targets.TargetTilesPerSide
      let side := px * (tiles : ℝ)
      let radius := (side / 2) / Real.sin (deg2rad (90 - interior / 2))
      { st with
        OriginOffset := ⟨0, 0, 0⟩
        ArenaSides := arenaSides
        InteriorAngle := interior
        ExteriorAngle := exterior
        FocusGridIndex := fg
        FocusPolygonIndex := fp
        CurrentBOR := sec.SectionBuildOrderRules
        TilesPerArenaSide := tiles
        SideLength := side
        InscribedRadius := radius
        Apothem := |CalculateAdjacent radius (interior / 2)|
        ArenaDimensions := Int.ceil ((radius * 2) / gx) }
    | .PolygonLeadByRadius =>
      let tiles := Int.floor
        ((2 * CalculateOpposite sec.Targets.TargetInscribedRadius (interior / 2)) / px)
      let side := px * (tiles : ℝ)
      let radius := (side / 2) / Real.sin (deg2rad (90 - interior / 2))
      { st with
        OriginOffset := ⟨0, 0, 0⟩
        ArenaSides := arenaSides
        InteriorAngle := interior
        ExteriorAngle := exterior
        FocusGridIndex := fg
        FocusPolygonIndex := fp
        CurrentBOR := sec.SectionBuildOrderRules
        TilesPerArenaSide := tiles
        SideLength := side
        InscribedRadius := radius
        Apothem := |CalculateAdjacent radius (interior / 2)|
        ArenaDimensions := Int.ceil ((radius * 2) / gx) }

end ArenaGen

namespace ArenaGen

/-- Group index resolution at the top of BuildSection
(BaseArenaGenerator.cpp:289, 297): the rule index is used only when it is
strictly positive and strictly below the catalog size, otherwise 0. -/
def resolvedGroupIdx (cfg : ArenaConfig) (ru : FArenaSectionBuildRules) : Int :=
  match ru.AssetToPlace with
  | .StaticMeshes =>
      if ru.ObjectGroupId < (cfg.MeshGroups.length : ℤ) ∧ 0 < ru.ObjectGroupId then
        ru.ObjectGroupId else 0
  | .Actors =>
      if ru.ObjectGroupId < (cfg.ActorGroups.length : ℤ) ∧ 0 < ru.ObjectGroupId then
        ru.ObjectGroupId else 0

/-- MeshSize picked in BuildSection: the resolved group's dimensions
(mesh groups for StaticMeshes, actor groups for Actors). -/
def resolvedMeshSize (cfg : ArenaConfig) (ru : FArenaSectionBuildRules) : FVec3 :=
  match ru.AssetToPlace with
  | .StaticMeshes => (getMG cfg (resolvedGroupIdx cfg ru)).MeshDimensions
  | .Actors => (getAG cfg (resolvedGroupIdx cfg ru)).ActorDimensions

/-- MeshScale picked in BuildSection. -/
def resolvedMeshScale (cfg : ArenaConfig) (ru : FArenaSectionBuildRules) : FVec3 :=
  match ru.AssetToPlace with
  | .StaticMeshes => (getMG cfg (resolvedGroupIdx cfg ru)).MeshScale
  | .Actors => (getAG cfg (resolvedGroupIdx cfg ru)).ActorScale

/-- The actor-group guard of BuildSection (BaseArenaGenerator.cpp:268):
ActorGroups.IsEmpty() || ActorGroups[0].ClassesToSpawn.IsEmpty(). -/
def actorCatalogBad (cfg : ArenaConfig) : Bool :=
  match cfg.ActorGroups with
  | [] => true
  | g :: _ => g.ClassesToSpawn.isEmpty

/-- The class the Actors branches actually spawn
(BaseArenaGenerator.cpp:582 and 692): always
ActorGroups[0].ClassesToSpawn[0], independent of the resolved group. -/
def spawnedActorClass (cfg : ArenaConfig) : Nat :=
  (getAG cfg 0).ClassesToSpawn.getD 0 0

/-- OriginOffset recomputation in BuildSection (BaseArenaGenerator.cpp:319):
a lookup over origin placement policy, section type and the current build
order rule; every branch keeps the accumulated Z component. -/
noncomputable def updateOriginOffset (cfg : ArenaConfig) (ru : FArenaSectionBuildRules)
    (st : ArenaState) (meshSize meshScale : FVec3) (currTilesPerSide : Int) : FVec3 :=
  let z := st.OriginOffset.z
  let dims : ℝ := (st.ArenaDimensions : ℝ)
  let gridLed := st.CurrentBOR = EArenaBuildOrderRules.GridLeadsByDimensions ∨
    st.CurrentBOR = EArenaBuildOrderRules.GridLeadsByRadius
  match cfg.ArenaPlacementOnActor with
  | .Center =>
    if ru.SectionType = EArenaSectionType.HorizontalGrid then
      ⟨meshSize.x * (-0.5 * dims) * meshScale.x,
       meshSize.y * (-0.5 * dims) * meshScale.y, z⟩
    else
      let polygonOffset := (ForwardVectorFromYaw (st.InteriorAngle / 2) * st.InscribedRadius) *
        (⟨(currTilesPerSide : ℝ) / (st.SideLength / meshSize.x),
          (currTilesPerSide : ℝ) / (st.SideLength / meshSize.x),
          (currTilesPerSide : ℝ) / (st.SideLength / meshSize.x)⟩ : FVec3)
      if gridLed then ⟨-polygonOffset.x, -polygonOffset.y, z⟩
      else ⟨-(st.SideLength / 2), -st.Apothem, z⟩
  | .XY_Positive =>
    if ru.SectionType = EArenaSectionType.HorizontalGrid then
      ⟨0, 0, z⟩
    else
      if gridLed then
        ⟨(meshSize.x * dims * meshScale.x - st.Apothem * 2) / 2,
         (meshSize.x * dims * meshScale.x - st.Apothem * 2) / 2, z⟩
      else
        ⟨meshSize.x * (0.5 * dims) * meshScale.x - st.SideLength / 2,
         (meshSize.x * dims * meshScale.x - st.Apothem * 2) / 2, z⟩
  | .X_Positive_Y_Negative =>
    if ru.SectionType = EArenaSectionType.HorizontalGrid then
      ⟨0, meshSize.y * -dims * meshScale.y, z⟩
    else
      if gridLed then
        ⟨(meshSize.x * dims * meshScale.x - st.Apothem * 2) / 2,
         -(meshSize.x * dims * meshScale.x) + (meshSize.x * dims * meshScale.x - st.Apothem * 2) / 2, z⟩
      else
        ⟨meshSize.x * (0.5 * dims) * meshScale.x - st.SideLength / 2,
         -(meshSize.x * dims * meshScale.x) + (meshSize.x * dims * meshScale.x - st.Apothem * 2) / 2, z⟩
  | .XY_Negative =>
    if ru.SectionType = EArenaSectionType.HorizontalGrid then
      ⟨meshSize.x * -dims * meshScale.x, meshSize.y * -dims * meshScale.y, z⟩
    else
      if gridLed then
        ⟨-(meshSize.x * dims * meshScale.x) + (meshSize.x * dims * meshScale.x - st.Apothem * 2) / 2,
         -(meshSize.x * dims * meshScale.x) + (meshSize.x * dims * meshScale.x - st.Apothem * 2) / 2, z⟩
      else
        ⟨-(meshSize.x * dims * meshScale.x) + (meshSize.x * (0.5 * dims) * meshScale.x - st.SideLength / 2),
         -(meshSize.x * dims * meshScale.x) + (meshSize.x * dims * meshScale.x - st.Apothem * 2) / 2, z⟩
  | .X_Negative_Y_Positive =>
    if ru.SectionType = EArenaSectionType.HorizontalGrid then
      ⟨meshSize.x * -dims * meshScale.x, 0, z⟩
    else
      if gridLed then
        ⟨-st.Apothem - st.SideLength / 2 - meshSize.x * 3 / 4,
         (meshSize.x * dims * meshScale.x - st.Apothem * 2) / 2, z⟩
      else
        ⟨-(meshSize.x * dims * meshScale.x) + (meshSize.x * (0.5 * dims) * meshScale.x - st.SideLength / 2),
         (meshSize.x * dims * meshScale.x - st.Apothem * 2) / 2, z⟩

/-- Mesh-group instancing registration (BaseArenaGenerator.cpp:451): a
group index is added to UsedGroupIndices only the first time it occurs in
the pass, together with one instance bucket per valid mesh of the group;
the reroute index is where the group sits in UsedGroupIndices. -/
def registerMeshGroup (cfg : ArenaConfig) (g : Int) (st : ArenaState) : Nat × ArenaState :=
  if st.UsedGroupIndices.contains g then (st.UsedGroupIndices.indexOf g, st)
  else
    (st.UsedGroupIndices.length,
     { st with
       UsedGroupIndices := st.UsedGroupIndices ++ [g]
       MeshInstanceBuckets := st.MeshInstanceBuckets ++
         [((getMG cfg g).GroupMeshes.filter (fun m => m.MeshValid)).length] })

/-- AddInstance on a bucket (BaseArenaGenerator.cpp:565): the placement is
handed to the sink and TotalInstances is incremented when the component
exists, otherwise an error is reported and the cell is skipped. -/
def emitMesh (st : ArenaState) (reRouteIdx meshIdx : Nat) (p : PlacementTransform) : ArenaState :=
  if meshIdx < st.MeshInstanceBuckets.getD reRouteIdx 0 then
    { st with emitted := st.emitted ++ [p], TotalInstances := st.TotalInstances + 1 }
  else { st with errors := st.errors + 1 }

/-- SpawnActor for a cell (BaseArenaGenerator.cpp:582, 692): the placement
is handed to the spawn sink and the spawned handle (its class id) is
recorded; TotalInstances is not changed by actor cells. -/
def emitActor (st : ArenaState) (classId : Nat) (p : PlacementTransform) : ArenaState :=
  { st with emitted := st.emitted ++ [p], SpawnedActors := st.SpawnedActors ++ [classId] }

/-- Per-cell rotation resolution (BaseArenaGenerator.cpp:518, 631): the
random integer for RotateByYP, the (possibly re-randomised) yaw for
RotateYawRandomly, and the advanced stream seed. -/
noncomputable def drawRotation (ru : FArenaSectionBuildRules) (yawPosMax : Int)
    (sideYaw : ℝ) (seed : Nat) : Int × ℝ × Nat :=
  match ru.RotationRule with
  | .NoRule => (0, sideYaw, seed)
  | .RotateByYP => ((sRandRange seed 0 yawPosMax).1, sideYaw, (sRandRange seed 0 yawPosMax).2)
  | .RotateYawRandomly => (0, (sFRandRange seed 0 360).1, (sFRandRange seed 0 360).2)

/-- Bundle of the per-rule values BuildSection computes before iterating
cells. -/
structure SectionCtx where
  ru : FArenaSectionBuildRules
  groupIdx : Int
  reRouteIdx : Nat
  meshSize : FVec3
  meshScale : FVec3
  heightAdjustment : ℝ
  bConcavity : Bool
  currTilesPerSide : Int
  rotationIncr : ℝ
  yawPosMax : Int
  sectionAmount : Int

/-- OriginType of GroupMeshes[0] of the resolved mesh group (the source
always uses MeshIdx = 0). -/
def cellOriginType (cfg : ArenaConfig) (cx : SectionCtx) : EOriginPlacementType :=
  (((getMG cfg cx.groupIdx).GroupMeshes.getD 0
    ⟨EOriginPlacementType.XY_Positive, false⟩)).OriginType

/-- One HorizontalGrid cell (BaseArenaGenerator.cpp:619): rotation draw,
rotation-offset adjustment, location sum, optional warps, and the emission
to the instancing or spawn sink. -/
noncomputable def gridCell (cfg : ArenaConfig) (cx : SectionCtx) (st : ArenaState)
    (timesIdx row col : Nat) : ArenaState :=
  let meshIdx : Nat := 0
  let d := drawRotation cx.ru cx.yawPosMax 0 st.streamSeed
  let randomVal := d.1
  let yawRotation := d.2.1
  let seed1 := d.2.2
  let rotationOffsetAdjustment :=
    OffsetMeshToCenter (cellOriginType cfg cx) cx.meshSize
        (cx.ru.DefaultRotation.yaw + yawRotation + cx.rotationIncr * (randomVal : ℝ))
      - OriginOffsetScalar (cellOriginType cfg cx) * cx.meshSize
      + (⟨0.5, 0.5, 0⟩ : FVec3) * cx.meshSize.x
  let w := if cx.ru.bWarpPlacement then
      PlacementWarpingDirectional seed1 cx.ru.WarpRange ⟨1, 0, 0⟩ ⟨0, 1, 0⟩
    else ((⟨0, 0, 0⟩ : FVec3), seed1)
  let conc := if cx.bConcavity then
      PlacementWarpingConcavity (Int.tdiv cx.currTilesPerSide 2) (Int.tdiv cx.currTilesPerSide 2)
        (row : ℤ) (col : ℤ) cx.ru.WarpConcavityStrength ⟨0, 0, 1⟩
    else (⟨0, 0, 0⟩ : FVec3)
  let loc := st.OriginOffset
    + (⟨0, 0, cx.meshSize.z * (timesIdx : ℝ) + cx.heightAdjustment⟩ : FVec3)
    + (⟨1, 0, 0⟩ : FVec3) * cx.meshSize.x * cx.meshScale.x * (row : ℝ)
    + (⟨0, 1, 0⟩ : FVec3) * cx.meshSize.y * cx.meshScale.y * (col : ℝ)
    + rotationOffsetAdjustment + w.1 + conc
  let rot : FRot :=
    ⟨cx.ru.DefaultRotation.pitch,
     yawRotation + cx.rotationIncr * (randomVal : ℝ),
     cx.ru.DefaultRotation.roll⟩
  let st1 := { st with streamSeed := w.2 }
  match cx.ru.AssetToPlace with
  | .StaticMeshes =>
      emitMesh st1 cx.reRouteIdx meshIdx ⟨rot, loc, cx.meshScale, .mesh cx.reRouteIdx meshIdx⟩
  | .Actors =>
      emitActor st1 (spawnedActorClass cfg) ⟨rot, loc, cx.meshScale, .actor (spawnedActorClass cfg)⟩

/-- One Polygon cell (BaseArenaGenerator.cpp:510): like a grid cell but
positioned along the cached side position, with width offsets along the
side right vector and the rotation-offset adjustment applied only to
static meshes. -/
noncomputable def polyCell (cfg : ArenaConfig) (cx : SectionCtx)
    (lastCachedPosition sideAngleFV sideAngleRV : FVec3) (sideYaw : ℝ)
    (st : ArenaState) (lenIdx heightIdx : Nat) : ArenaState :=
  let meshIdx : Nat := 0
  let d := drawRotation cx.ru cx.yawPosMax sideYaw st.streamSeed
  let randomVal := d.1
  let yawRotation := d.2.1
  let seed1 := d.2.2
  let rotationOffsetAdjustment :=
    if cx.ru.AssetToPlace = ETypeToPlace.StaticMeshes then
      OffsetMeshToCenter (cellOriginType cfg cx) cx.meshSize
          (cx.ru.DefaultRotation.yaw + yawRotation + cx.rotationIncr * (randomVal : ℝ))
        - OriginOffsetScalar (cellOriginType cfg cx) * cx.meshSize
        + sideAngleFV * ((⟨0.5, 0.5, 0⟩ : FVec3) * cx.meshSize.x)
    else (⟨0, 0, 0⟩ : FVec3)
  let conc := if cx.bConcavity then
      PlacementWarpingConcavity (Int.tdiv cx.currTilesPerSide 2) (Int.tdiv cx.currTilesPerSide 2)
        (lenIdx : ℤ) (heightIdx : ℤ) cx.ru.WarpConcavityStrength sideAngleRV
    else (⟨0, 0, 0⟩ : FVec3)
  let w := if cx.ru.bWarpPlacement then
      PlacementWarpingDirectional seed1 cx.ru.WarpRange sideAngleFV sideAngleRV
    else ((⟨0, 0, 0⟩ : FVec3), seed1)
  let loc := lastCachedPosition
    + st.OriginOffset
    + (⟨0, 0, cx.meshSize.z * ((heightIdx : ℝ) * cx.ru.OffsetByHeightIncrement) + cx.heightAdjustment⟩ : FVec3)
    + sideAngleRV * cx.meshSize.y * cx.ru.InitOffsetByWidthScalar
    + sideAngleRV * cx.meshSize.y * cx.ru.OffsetByWidthIncrement * (heightIdx : ℝ)
    + rotationOffsetAdjustment + conc + w.1
  let rot : FRot :=
    ⟨cx.ru.DefaultRotation.pitch,
     cx.ru.DefaultRotation.yaw + yawRotation + cx.rotationIncr * (randomVal : ℝ),
     cx.ru.DefaultRotation.roll⟩
  let st1 := { st with streamSeed := w.2 }
  match cx.ru.AssetToPlace with
  | .StaticMeshes =>
      emitMesh st1 cx.reRouteIdx meshIdx
        ⟨rot, loc, ⟨cx.meshScale.x, cx.meshScale.y, cx.meshScale.z⟩, .mesh cx.reRouteIdx meshIdx⟩
  | .Actors =>
      emitActor st1 (spawnedActorClass cfg)
        ⟨rot, loc, ⟨cx.meshScale.x, cx.meshScale.y, cx.meshScale.z⟩, .actor (spawnedActorClass cfg)⟩

/-- One tile of one polygon side (the LenIdx loop body,
BaseArenaGenerator.cpp:506): advances the cached position except at the
first tile of the side, then runs all height levels at that position. -/
noncomputable def polyTile (cfg : ArenaConfig) (cx : SectionCtx)
    (sideAngleFV sideAngleRV : FVec3) (sideYaw : ℝ)
    (acc : ArenaState × FVec3) (lenIdx : Nat) : ArenaState × FVec3 :=
  let lcp := sideAngleFV * cx.meshSize.x * (if 0 < lenIdx then (1 : ℝ) else 0) + acc.2
  let st2 := (List.range cx.sectionAmount.toNat).foldl
    (fun s heightIdx => polyCell cfg cx lcp sideAngleFV sideAngleRV sideYaw s lenIdx heightIdx)
    acc.1
  (st2, lcp)

/-- One polygon side (the SideIdx loop body, BaseArenaGenerator.cpp:492):
moves the cached position by the previous side vector, recomputes the side
forward/right vectors and yaw, and iterates the tiles of the side. -/
noncomputable def polySide (cfg : ArenaConfig) (cx : SectionCtx) (arenaSides : Int)
    (exteriorAngle : ℝ) (acc : ArenaState × FVec3) (sideIdx : Nat) : ArenaState × FVec3 :=
  let prevFV : FVec3 :=
    if sideIdx = 0 then ⟨0, 0, 0⟩ else ForwardVectorFromYaw (exteriorAngle * ((sideIdx - 1 : Nat) : ℝ))
  let lcp := acc.2 + prevFV * cx.meshSize.x
  let sideAngleFV := ForwardVectorFromYaw (exteriorAngle * (sideIdx : ℝ))
  let sideYaw := (360 / (arenaSides : ℝ)) * (sideIdx : ℝ)
  let sideAngleRV := RightVectorFromYaw sideYaw
  (List.range cx.currTilesPerSide.toNat).foldl
    (polyTile cfg cx sideAngleFV sideAngleRV sideYaw) (acc.1, lcp)

/-- ABaseArenaGenerator::BuildSection (BaseArenaGenerator.cpp:261).  The
in-place coercion of SectionAmount on the shared rule object is modelled
by the local sectionAmount (the coercion is idempotent, so this is
observationally equivalent). -/
noncomputable def buildSection (cfg : ArenaConfig) (ru : FArenaSectionBuildRules)
    (st : ArenaState) : ArenaState :=
  if ru.AssetToPlace = ETypeToPlace.StaticMeshes ∧ cfg.MeshGroups.isEmpty = true then
    { st with errors := st.errors + 1 }
  else if ru.AssetToPlace = ETypeToPlace.Actors ∧ actorCatalogBad cfg = true then
    { st with errors := st.errors + 1 }
  else
    let sectionAmount := if ru.SectionAmount < 1 then 1 else ru.SectionAmount
    let groupIdx := resolvedGroupIdx cfg ru
    let meshSize := resolvedMeshSize cfg ru
    let meshScale := resolvedMeshScale cfg ru
    let prevMeshSize :=
      if st.PreviousMeshSize.x = 0 ∧ st.PreviousMeshSize.y = 0 ∧ st.PreviousMeshSize.z = 0 then
        meshSize else st.PreviousMeshSize
    let meshScalar : ℝ := if prevMeshSize.x ≠ 0 then meshSize.x / prevMeshSize.x else 1
    let heightAdjustment := meshSize.z * ru.InitOffsetByHeightScalar
    let bConcavity : Bool :=
      if ru.bWarpPlacement = true ∧ ru.WarpConcavityStrength ≠ 0 then true else false
    let currTilesPerSide :=
      if meshScalar = 1 then st.TilesPerArenaSide
      else iclamp (Int.floor ((2 * CalculateOpposite st.InscribedRadius (st.InteriorAngle / 2)) / meshSize.x))
        1 cfg.MaxTilesPerSideRow
    let prevTiles := if st.PreviousTilesPerSide = 0 then st.TilesPerArenaSide else st.PreviousTilesPerSide
    let origin := updateOriginOffset cfg ru st meshSize meshScale currTilesPerSide
    let rotationIncr : ℝ := 360 / (ru.YawPossibilities : ℝ)
    let yawPosMax := iclamp (ru.YawPossibilities - 1) 2 720
    let st1 : ArenaState :=
      { st with
        PreviousMeshSize := prevMeshSize
        PreviousTilesPerSide := prevTiles
        OriginOffset := origin }
    let reg := if ru.AssetToPlace = ETypeToPlace.StaticMeshes then
        registerMeshGroup cfg groupIdx st1
      else (0, st1)
    let cx : SectionCtx :=
      { ru := ru
        groupIdx := groupIdx
        reRouteIdx := reg.1
        meshSize := meshSize
        meshScale := meshScale
        heightAdjustment := heightAdjustment
        bConcavity := bConcavity
        currTilesPerSide := currTilesPerSide
        rotationIncr := rotationIncr
        yawPosMax := yawPosMax
        sectionAmount := sectionAmount }
    match ru.SectionType with
    | .Polygon =>
      let res := (List.range st.ArenaSides.toNat).foldl
        (polySide cfg cx st.ArenaSides st.ExteriorAngle) (reg.2, (⟨0, 0, 0⟩ : FVec3))
      let st4 := { res.1 with
        PreviousTilesPerSide := currTilesPerSide
        PreviousLastPosition := res.2 }
      let st5 := if ru.bUpdatesOriginOffsetHeight then
          { st4 with OriginOffset :=
            ⟨st4.OriginOffset.x, st4.OriginOffset.y,
             st4.OriginOffset.z + meshSize.z * (sectionAmount : ℝ) * ru.OffsetByHeightIncrement⟩ }
        else st4
      { st5 with PreviousMeshSize := meshSize }
    | .HorizontalGrid =>
      let sectionDims :=
        if meshSize.x = prevMeshSize.x then st.ArenaDimensions
        else Int.floor ((2 * st.SideLength) / meshSize.x)
      let st3 := (List.range sectionAmount.toNat).foldl
        (fun s timesIdx => (List.range sectionDims.toNat).foldl
          (fun s2 row => (List.range sectionDims.toNat).foldl
            (fun s3 col => gridCell cfg cx s3 timesIdx row col) s2) s)
        reg.2
      let st5 := if ru.bUpdatesOriginOffsetHeight then
          { st3 with OriginOffset :=
            ⟨st3.OriginOffset.x, st3.OriginOffset.y,
             st3.OriginOffset.z + meshSize.z * (sectionAmount : ℝ) * ru.OffsetByHeightIncrement⟩ }
        else st3
      { st5 with PreviousMeshSize := meshSize }

/-- ABaseArenaGenerator::BuildSections (BaseArenaGenerator.cpp:227). -/
noncomputable def runSection (cfg : ArenaConfig) (st : ArenaState) (sec : FArenaSection) : ArenaState :=
  sec.BuildRules.foldl (fun s r => buildSection cfg r s) (calcSectionParameters cfg sec st)

/-- BuildSections: guards for totally-empty catalogs and an empty section
list, then one parameter derivation plus rule builds per section, in
order. -/
noncomputable def buildSections (cfg : ArenaConfig) (st : ArenaState) : ArenaState :=
  if cfg.MeshGroups.isEmpty = true ∧ cfg.ActorGroups.isEmpty = true then
    { st with errors := st.errors + 1 }
  else if cfg.SectionList.isEmpty = true then st
  else cfg.SectionList.foldl (runSection cfg) st

/-- ABaseArenaGenerator::GenerateArena (BaseArenaGenerator.cpp:65): wipe,
then build all sections.  Note that the wipe does not reseed the random
stream. -/
noncomputable def generateArena (cfg : ArenaConfig) (st : ArenaState) : ArenaState :=
  buildSections cfg (wipeArena st)

end ArenaGen

namespace ArenaGen

/-- Spec-side concavity warp, written from the words of the specification:
strength * clamp(lerp(0,1,clamp(|col-colMid|/rowMid,0,1)) *
lerp(0,1,clamp(|row-rowMid|/rowMid,0,1)),0,1) * direction.  To be compared
with the source-translated PlacementWarpingConcavity. -/
noncomputable def concavityWarpSpec (colMid rowMid col row : Int)
    (strength : ℝ) (direction : FVec3) : FVec3 :=
  (strength *
    fclamp (flerp 0 1 (fclamp ((|col - colMid| : ℤ) / (rowMid : ℝ)) 0 1) *
      flerp 0 1 (fclamp ((|row - rowMid| : ℤ) / (rowMid : ℝ)) 0 1)) 0 1) * direction

end ArenaGen

namespace ArenaGen

/-- Helper: fclamp of zero between zero and one is zero. -/
theorem fclamp_zero_zero_one : fclamp 0 0 1 = 0 := by
  unfold fclamp
  norm_num

/-- C6: for all integer grid inputs with a nonzero row midpoint, the
concavity warp function returns exactly the formula of the specification
(both axis normalisations dividing by rowMid), and at the exact grid
midpoint it returns the zero vector for any positive strength. -/
theorem claim_C6_concavity_formula (colMid rowMid col row : Int) (s : ℝ) (d : FVec3)
    (h : rowMid ≠ 0) (hs : 0 < s) :
    PlacementWarpingConcavity colMid rowMid col row s d =
      concavityWarpSpec colMid rowMid col row s d ∧
    PlacementWarpingConcavity colMid rowMid colMid rowMid s d = ⟨0, 0, 0⟩ := by
  constructor
  · unfold PlacementWarpingConcavity concavityWarpSpec
    ext <;> simp <;> ring
  · unfold PlacementWarpingConcavity
    simp [fclamp_zero_zero_one, flerp]
    ext <;> simp

/-- Witness for C6 at colMid = 1, rowMid = 2, col = 3, row = 0, strength 1,
direction the unit Z vector. -/
theorem claim_C6_concavity_formula_witness :
    PlacementWarpingConcavity 1 2 3 0 1 ⟨0, 0, 1⟩ = concavityWarpSpec 1 2 3 0 1 ⟨0, 0, 1⟩ ∧
    PlacementWarpingConcavity 1 2 1 2 1 ⟨0, 0, 1⟩ = ⟨0, 0, 0⟩ :=
  claim_C6_concavity_formula 1 2 3 0 1 ⟨0, 0, 1⟩ (by decide) (by norm_num)

end ArenaGen

namespace ArenaGen

/-- Overwrite of the derived-geometry fields of a state; used to relate
the states left behind by WipeArena, which resets the session fields but
not the derived geometry. -/
def setDerived (s : ArenaState) (a b c d e : ℝ) (n m t : Int) : ArenaState :=
  { s with
    InscribedRadius := a
    Apothem := b
    InteriorAngle := c
    ExteriorAngle := d
    SideLength := e
    ArenaSides := n
    ArenaDimensions := m
    TilesPerArenaSide := t }

/-- Freshly constructed generator state with a given stream seed
(ABaseArenaGenerator constructor, BaseArenaGenerator.cpp:34). -/
def st0 (seed : Nat) : ArenaState :=
  { streamSeed := seed
    TotalInstances := 0
    CurrentBOR := EArenaBuildOrderRules.PolygonLeadByRadius
    OriginOffset := ⟨0, 0, 0⟩
    PreviousMeshSize := ⟨0, 0, 0⟩
    PreviousTilesPerSide := 0
    PreviousLastPosition := ⟨0, 0, 0⟩
    FocusGridIndex := 0
    FocusPolygonIndex := 0
    InscribedRadius := 0
    Apothem := 0
    InteriorAngle := 0
    ExteriorAngle := 0
    SideLength := 0
    ArenaSides := 0
    ArenaDimensions := 0
    TilesPerArenaSide := 0
    UsedGroupIndices := []
    MeshInstanceBuckets := []
    SpawnedActors := []
    emitted := []
    errors := 0 }

/-- Test mesh group: a 100-unit cube with a single valid center-pivot
mesh. -/
def mgCube : FArenaMeshGroupConfig :=
  ⟨⟨100, 100, 100⟩, ⟨1, 1, 1⟩, [⟨EOriginPlacementType.Center, true⟩]⟩

/-- Second test mesh group (200-unit cube). -/
def mgBig : FArenaMeshGroupConfig :=
  ⟨⟨200, 200, 200⟩, ⟨1, 1, 1⟩, [⟨EOriginPlacementType.Center, true⟩]⟩

/-- Test actor group 0, spawn class id 7. -/
def agFirst : FArenaActorConfig := ⟨⟨100, 100, 100⟩, ⟨1, 1, 1⟩, [7]⟩

/-- Test actor group 1, spawn class id 9, distinct dimensions and scale. -/
def agSecond : FArenaActorConfig := ⟨⟨200, 200, 200⟩, ⟨2, 2, 2⟩, [9]⟩

/-- Build rule used by the determinism tests: a one-level static-mesh
horizontal grid rotated by quantized yaw (4 possibilities), no warping. -/
def ruleYP4 : FArenaSectionBuildRules :=
  { SectionType := EArenaSectionType.HorizontalGrid
    SectionAmount := 1
    AssetToPlace := ETypeToPlace.StaticMeshes
    ObjectGroupId := 0
    bUpdatesOriginOffsetHeight := false
    DefaultRotation := ⟨0, 0, 0⟩
    RotationRule := EPlacementOrientationRule.RotateByYP
    YawPossibilities := 4
    bWarpPlacement := false
    WarpRange := ⟨0, 0, 1⟩
    WarpConcavityStrength := 0
    InitOffsetByWidthScalar := 0
    OffsetByWidthIncrement := 0
    InitOffsetByHeightScalar := 0
    OffsetByHeightIncrement := 1 }

/-- Same rule with two yaw possibilities (for the RotateByYP range
counterexample). -/
def ruleYP2 : FArenaSectionBuildRules :=
  { ruleYP4 with YawPossibilities := 2 }

/-- Section used by the determinism counterexample: grid leads by
dimensions with a 1 x 1 grid, 4 polygon sides, one tile per side. -/
def secGrid1 : FArenaSection :=
  { SectionBuildOrderRules := EArenaBuildOrderRules.GridLeadsByDimensions
    Targets :=
      { TargetInscribedRadius := 0
        TargetPolygonSides := 4
        TargetTilesPerSide := 1
        TargetGridDimensions := 1 }
    BuildRules := [ruleYP4] }

/-- Configuration for the determinism counterexample: one mesh group, the
single secGrid1 section, centered placement. -/
def cfgC1 : ArenaConfig :=
  { MeshGroups := [mgCube]
    ActorGroups := []
    SectionList := [secGrid1]
    ArenaPlacementOnActor := EOriginPlacementType.Center
    MaxSides := 120
    MaxTilesPerSideRow := 100 }

/-- Section for the TilesPerArenaSide clamp counterexample:
PolygonLeadByDimensions with a zero tiles-per-side target. -/
def secTiles0 : FArenaSection :=
  { SectionBuildOrderRules := EArenaBuildOrderRules.PolygonLeadByDimensions
    Targets :=
      { TargetInscribedRadius := 2500
        TargetPolygonSides := 4
        TargetTilesPerSide := 0
        TargetGridDimensions := 15 }
    BuildRules := [] }

/-- Section for the supplementary-angle counterexample: 7 polygon sides. -/
def secSides7 : FArenaSection :=
  { SectionBuildOrderRules := EArenaBuildOrderRules.GridLeadsByDimensions
    Targets :=
      { TargetInscribedRadius := 0
        TargetPolygonSides := 7
        TargetTilesPerSide := 1
        TargetGridDimensions := 2 }
    BuildRules := [] }

/-- Section for the round-trip test: PolygonLeadByDimensions, 4 sides,
2 tiles per side. -/
def secPolyDim : FArenaSection :=
  { SectionBuildOrderRules := EArenaBuildOrderRules.PolygonLeadByDimensions
    Targets :=
      { TargetInscribedRadius := 2500
        TargetPolygonSides := 4
        TargetTilesPerSide := 2
        TargetGridDimensions := 15 }
    BuildRules := [] }

/-- Grid build rule referring to object group 1 (for the focus-scan
counterexample). -/
def ruleGridGroup1 : FArenaSectionBuildRules :=
  { ruleYP4 with ObjectGroupId := 1, RotationRule := EPlacementOrientationRule.NoRule }

/-- First section of the focus-scan counterexample: contains a
HorizontalGrid rule referring to group 1. -/
def secFocusA : FArenaSection :=
  { SectionBuildOrderRules := EArenaBuildOrderRules.GridLeadsByDimensions
    Targets :=
      { TargetInscribedRadius := 0
        TargetPolygonSides := 4
        TargetTilesPerSide := 1
        TargetGridDimensions := 2 }
    BuildRules := [ruleGridGroup1] }

/-- Second section of the focus-scan counterexample: no build rules at
all, so neither focus index is found. -/
def secFocusB : FArenaSection :=
  { SectionBuildOrderRules := EArenaBuildOrderRules.GridLeadsByDimensions
    Targets :=
      { TargetInscribedRadius := 0
        TargetPolygonSides := 4
        TargetTilesPerSide := 1
        TargetGridDimensions := 2 }
    BuildRules := [] }

/-- Configuration with two mesh groups for the focus-scan counterexample. -/
def cfgC9 : ArenaConfig :=
  { MeshGroups := [mgCube, mgBig]
    ActorGroups := []
    SectionList := [secFocusA, secFocusB]
    ArenaPlacementOnActor := EOriginPlacementType.Center
    MaxSides := 120
    MaxTilesPerSideRow := 100 }

/-- Configuration with an empty mesh-group catalog (for the error-handling
claim). -/
def cfgEmptyMesh : ArenaConfig :=
  { MeshGroups := []
    ActorGroups := [agFirst]
    SectionList := []
    ArenaPlacementOnActor := EOriginPlacementType.Center
    MaxSides := 120
    MaxTilesPerSideRow := 100 }

/-- Configuration with two actor groups and two mesh groups (for the
actor-class claim). -/
def cfgActors : ArenaConfig :=
  { MeshGroups := [mgCube, mgBig]
    ActorGroups := [agFirst, agSecond]
    SectionList := []
    ArenaPlacementOnActor := EOriginPlacementType.Center
    MaxSides := 120
    MaxTilesPerSideRow := 100 }

/-- Actor build rule referring to actor group 1: one-level horizontal
grid, no rotation, no warp. -/
def ruleActors1 : FArenaSectionBuildRules :=
  { ruleYP4 with
    AssetToPlace := ETypeToPlace.Actors
    ObjectGroupId := 1
    RotationRule := EPlacementOrientationRule.NoRule }

/-- State used for direct BuildSection runs: previous mesh size and tile
counts already populated so that the section dimensions resolve to 1. -/
def stDirect (seed : Nat) (prevSize : FVec3) : ArenaState :=
  { st0 seed with
    PreviousMeshSize := prevSize
    PreviousTilesPerSide := 1
    TilesPerArenaSide := 1
    ArenaDimensions := 1 }

end ArenaGen

namespace ArenaGen

/-- Bounds of the integer clamp when the interval is sensible. -/
theorem iclamp_bounds (v lo hi : Int) (h : lo ≤ hi) :
    lo ≤ iclamp v lo hi ∧ iclamp v lo hi ≤ hi := by
  unfold iclamp
  split_ifs <;> omega

/-- Evaluation of the value-independent fields of CalculateSectionParameters
on a nonempty mesh catalog: clamped ArenaSides, integer-division
InteriorAngle, float ExteriorAngle, and the focus-scan results. -/
theorem calc_common_fields (cfg : ArenaConfig) (sec : FArenaSection) (st : ArenaState)
    (g : FArenaMeshGroupConfig) (gs : List FArenaMeshGroupConfig)
    (hG : cfg.MeshGroups = g :: gs) :
    (calcSectionParameters cfg sec st).ArenaSides =
      iclamp sec.Targets.TargetPolygonSides 3 cfg.MaxSides ∧
    (calcSectionParameters cfg sec st).InteriorAngle =
      ((Int.tdiv ((iclamp sec.Targets.TargetPolygonSides 3 cfg.MaxSides - 2) * 180)
        (iclamp sec.Targets.TargetPolygonSides 3 cfg.MaxSides) : ℤ) : ℝ) ∧
    (calcSectionParameters cfg sec st).ExteriorAngle =
      360 / ((iclamp sec.Targets.TargetPolygonSides 3 cfg.MaxSides : ℤ) : ℝ) ∧
    (calcSectionParameters cfg sec st).FocusGridIndex =
      (findFocus sec.BuildRules EArenaSectionType.HorizontalGrid).getD st.FocusGridIndex ∧
    (calcSectionParameters cfg sec st).FocusPolygonIndex =
      (findFocus sec.BuildRules EArenaSectionType.Polygon).getD st.FocusPolygonIndex := by
  obtain ⟨bor, tgts, rules⟩ := sec
  simp only [calcSectionParameters, hG]
  cases bor <;> simp

end ArenaGen

namespace ArenaGen

/-- TilesPerArenaSide is an iclamp-to-[1, MaxTilesPerSideRow] value under
the two grid-led build order rules. -/
theorem calc_tiles_gridLed (cfg : ArenaConfig) (sec : FArenaSection) (st : ArenaState)
    (g : FArenaMeshGroupConfig) (gs : List FArenaMeshGroupConfig)
    (hG : cfg.MeshGroups = g :: gs)
    (hB : sec.SectionBuildOrderRules = EArenaBuildOrderRules.GridLeadsByDimensions ∨
      sec.SectionBuildOrderRules = EArenaBuildOrderRules.GridLeadsByRadius) :
    ∃ v, (calcSectionParameters cfg sec st).TilesPerArenaSide =
      iclamp v 1 cfg.MaxTilesPerSideRow := by
  obtain ⟨bor, tgts, rules⟩ := sec
  rcases hB with h | h <;>
    (simp only at h; subst h; simp only [calcSectionParameters, hG]; exact ⟨_, rfl⟩)

/-- TilesPerArenaSide is the raw (unclamped) target under
PolygonLeadByDimensions. -/
theorem calc_tiles_polyDims (cfg : ArenaConfig) (sec : FArenaSection) (st : ArenaState)
    (g : FArenaMeshGroupConfig) (gs : List FArenaMeshGroupConfig)
    (hG : cfg.MeshGroups = g :: gs)
    (hB : sec.SectionBuildOrderRules = EArenaBuildOrderRules.PolygonLeadByDimensions) :
    (calcSectionParameters cfg sec st).TilesPerArenaSide =
      sec.Targets.TargetTilesPerSide := by
  obtain ⟨bor, tgts, rules⟩ := sec
  simp only at hB
  subst hB
  simp only [calcSectionParameters, hG]

/-- C2 (amended): after parameter derivation on a nonempty catalog,
ArenaSides always lies in [3, MaxSides] (for MaxSides at least 3), and
TilesPerArenaSide lies in [1, MaxTilesPerSideRow] under the two grid-led
build order policies; the polygon-led policies do not clamp it. -/
theorem claim_C2_amended (cfg : ArenaConfig) (sec : FArenaSection) (st : ArenaState)
    (g : FArenaMeshGroupConfig) (gs : List FArenaMeshGroupConfig)
    (hG : cfg.MeshGroups = g :: gs)
    (hMax : 3 ≤ cfg.MaxSides) (hTiles : 1 ≤ cfg.MaxTilesPerSideRow) :
    3 ≤ (calcSectionParameters cfg sec st).ArenaSides ∧
    (calcSectionParameters cfg sec st).ArenaSides ≤ cfg.MaxSides ∧
    ((sec.SectionBuildOrderRules = EArenaBuildOrderRules.GridLeadsByDimensions ∨
      sec.SectionBuildOrderRules = EArenaBuildOrderRules.GridLeadsByRadius) →
      1 ≤ (calcSectionParameters cfg sec st).TilesPerArenaSide ∧
      (calcSectionParameters cfg sec st).TilesPerArenaSide ≤ cfg.MaxTilesPerSideRow) := by
  obtain ⟨hA, _, _, _, _⟩ := calc_common_fields cfg sec st g gs hG
  refine ⟨?_, ?_, ?_⟩
  · rw [hA]; exact (iclamp_bounds _ _ _ hMax).1
  · rw [hA]; exact (iclamp_bounds _ _ _ hMax).2
  · intro hB
    obtain ⟨v, hv⟩ := calc_tiles_gridLed cfg sec st g gs hG hB
    rw [hv]
    exact iclamp_bounds _ _ _ hTiles

/-- Witness for the amended C2 at the concrete one-section grid
configuration. -/
theorem claim_C2_amended_witness :
    3 ≤ (calcSectionParameters cfgC1 secGrid1 (st0 0)).ArenaSides ∧
    (calcSectionParameters cfgC1 secGrid1 (st0 0)).ArenaSides ≤ cfgC1.MaxSides ∧
    ((secGrid1.SectionBuildOrderRules = EArenaBuildOrderRules.GridLeadsByDimensions ∨
      secGrid1.SectionBuildOrderRules = EArenaBuildOrderRules.GridLeadsByRadius) →
      1 ≤ (calcSectionParameters cfgC1 secGrid1 (st0 0)).TilesPerArenaSide ∧
      (calcSectionParameters cfgC1 secGrid1 (st0 0)).TilesPerArenaSide ≤ cfgC1.MaxTilesPerSideRow) :=
  claim_C2_amended cfgC1 secGrid1 (st0 0) mgCube [] rfl (by decide) (by decide)

/-- C2 counterexample: under PolygonLeadByDimensions with target
tiles-per-side 0, the derived TilesPerArenaSide is 0, below the claimed
lower bound 1 (the polygon-led branches perform no clamping). -/
theorem claim_C2_counterexample :
    (calcSectionParameters cfgC1 secTiles0 (st0 0)).TilesPerArenaSide = 0 ∧
    ¬ (1 ≤ (calcSectionParameters cfgC1 secTiles0 (st0 0)).TilesPerArenaSide) := by
  have h := calc_tiles_polyDims cfgC1 secTiles0 (st0 0) mgCube [] rfl rfl
  constructor
  · rw [h]; rfl
  · rw [h]; decide

end ArenaGen

namespace ArenaGen

/-- C3 (amended): the derived angles satisfy
InteriorAngle + ExteriorAngle = 180 exactly when the clamped side count
divides 360; InteriorAngle is computed with C++ integer division, so for
other side counts the sum falls short of 180. -/
theorem claim_C3_amended (cfg : ArenaConfig) (sec : FArenaSection) (st : ArenaState)
    (g : FArenaMeshGroupConfig) (gs : List FArenaMeshGroupConfig)
    (hG : cfg.MeshGroups = g :: gs) (hMax : 3 ≤ cfg.MaxSides)
    (hdvd : iclamp sec.Targets.TargetPolygonSides 3 cfg.MaxSides ∣ 360) :
    (calcSectionParameters cfg sec st).InteriorAngle +
      (calcSectionParameters cfg sec st).ExteriorAngle = 180 := by
  obtain ⟨hA, hI, hE, _, _⟩ := calc_common_fields cfg sec st g gs hG
  set n := iclamp sec.Targets.TargetPolygonSides 3 cfg.MaxSides with hn
  have hn3 : 3 ≤ n := (iclamp_bounds _ _ _ hMax).1
  obtain ⟨k, hk⟩ := hdvd
  have hne : n ≠ 0 := by omega
  have h1 : (n - 2) * 180 = n * (180 - k) := by
    have : n * k = 360 := hk.symm
    ring_nf
    linarith [this]
  have hIval : Int.tdiv ((n - 2) * 180) n = 180 - k := by
    rw [h1, Int.mul_tdiv_cancel_left _ hne]
  have hnR : ((n : ℤ) : ℝ) ≠ 0 := Int.cast_ne_zero.mpr hne
  have hkR : (360 : ℝ) / ((n : ℤ) : ℝ) = ((k : ℤ) : ℝ) := by
    rw [div_eq_iff hnR]
    have : ((360 : ℤ) : ℝ) = ((n * k : ℤ) : ℝ) := by rw [← hk]
    push_cast at this ⊢
    linarith
  rw [hI, hE, hIval, hkR]
  push_cast
  ring

/-- Witness for the amended C3 at 4 polygon sides (4 divides 360). -/
theorem claim_C3_amended_witness :
    (calcSectionParameters cfgC1 secGrid1 (st0 0)).InteriorAngle +
      (calcSectionParameters cfgC1 secGrid1 (st0 0)).ExteriorAngle = 180 :=
  claim_C3_amended cfgC1 secGrid1 (st0 0) mgCube [] rfl (by decide) (by decide)

/-- C3 counterexample: with 7 polygon sides the integer-division
InteriorAngle is 128 while the float ExteriorAngle is 360/7, and their
sum is not 180. -/
theorem claim_C3_counterexample :
    (calcSectionParameters cfgC1 secSides7 (st0 0)).InteriorAngle +
      (calcSectionParameters cfgC1 secSides7 (st0 0)).ExteriorAngle ≠ 180 := by
  obtain ⟨hA, hI, hE, _, _⟩ := calc_common_fields cfgC1 secSides7 (st0 0) mgCube [] rfl
  have h7 : iclamp secSides7.Targets.TargetPolygonSides 3 cfgC1.MaxSides = 7 := by decide
  rw [hI, hE, h7]
  have ht : Int.tdiv ((7 - 2) * 180) 7 = 128 := by decide
  rw [ht]
  push_cast
  norm_num

end ArenaGen

namespace ArenaGen

/-- C9 (amended): the deriver scans once and takes the focus indices from
the first rule of each type; when a type is absent the focus index keeps
its previous value, which is 0 right after WipeArena (so 0 is the
fallback only for the first section of a pass, not for every section). -/
theorem claim_C9_amended (cfg : ArenaConfig) (sec : FArenaSection) (st : ArenaState)
    (g : FArenaMeshGroupConfig) (gs : List FArenaMeshGroupConfig)
    (hG : cfg.MeshGroups = g :: gs) :
    (calcSectionParameters cfg sec st).FocusGridIndex =
      (findFocus sec.BuildRules EArenaSectionType.HorizontalGrid).getD st.FocusGridIndex ∧
    (calcSectionParameters cfg sec st).FocusPolygonIndex =
      (findFocus sec.BuildRules EArenaSectionType.Polygon).getD st.FocusPolygonIndex ∧
    (wipeArena st).FocusGridIndex = 0 ∧
    (wipeArena st).FocusPolygonIndex = 0 := by
  obtain ⟨_, _, _, h4, h5⟩ := calc_common_fields cfg sec st g gs hG
  exact ⟨h4, h5, rfl, rfl⟩

/-- Witness for the amended C9. -/
theorem claim_C9_amended_witness :
    (calcSectionParameters cfgC1 secGrid1 (st0 0)).FocusGridIndex =
      (findFocus secGrid1.BuildRules EArenaSectionType.HorizontalGrid).getD
        ((st0 0).FocusGridIndex) ∧
    (calcSectionParameters cfgC1 secGrid1 (st0 0)).FocusPolygonIndex =
      (findFocus secGrid1.BuildRules EArenaSectionType.Polygon).getD
        ((st0 0).FocusPolygonIndex) ∧
    (wipeArena (st0 0)).FocusGridIndex = 0 ∧
    (wipeArena (st0 0)).FocusPolygonIndex = 0 :=
  claim_C9_amended cfgC1 secGrid1 (st0 0) mgCube [] rfl

/-- C9 counterexample: after a first section whose grid rule refers to
group 1, deriving a second section that has no grid rule leaves the focus
grid index at 1, not at the claimed fallback 0. -/
theorem claim_C9_counterexample :
    (calcSectionParameters cfgC9 secFocusB
      (calcSectionParameters cfgC9 secFocusA (wipeArena (st0 0)))).FocusGridIndex = 1 ∧
    (1 : Int) ≠ 0 := by
  obtain ⟨_, _, _, hB, _⟩ := calc_common_fields cfgC9 secFocusB
    (calcSectionParameters cfgC9 secFocusA (wipeArena (st0 0))) mgCube [mgBig] rfl
  obtain ⟨_, _, _, hA, _⟩ := calc_common_fields cfgC9 secFocusA (wipeArena (st0 0))
    mgCube [mgBig] rfl
  constructor
  · rw [hB]
    have hnone : findFocus secFocusB.BuildRules EArenaSectionType.HorizontalGrid = none := rfl
    rw [hnone]
    simp only [Option.getD_none]
    rw [hA]
    rfl
  · decide

end ArenaGen

namespace ArenaGen

/-- C4: with an empty mesh-group catalog, parameter derivation and
BuildSection for a static-mesh rule abort immediately with one reported
error: the state is unchanged apart from the error counter, so nothing is
emitted, TotalInstances is untouched, and no indexing happens. -/
theorem claim_C4_empty_mesh_catalog (cfg : ArenaConfig) (sec : FArenaSection)
    (ru : FArenaSectionBuildRules) (st : ArenaState)
    (hG : cfg.MeshGroups = []) (hru : ru.AssetToPlace = ETypeToPlace.StaticMeshes) :
    calcSectionParameters cfg sec st = { st with errors := st.errors + 1 } ∧
    buildSection cfg ru st = { st with errors := st.errors + 1 } ∧
    (calcSectionParameters cfg sec st).emitted = st.emitted ∧
    (calcSectionParameters cfg sec st).TotalInstances = st.TotalInstances ∧
    (buildSection cfg ru st).emitted = st.emitted ∧
    (buildSection cfg ru st).TotalInstances = st.TotalInstances := by
  have h1 : calcSectionParameters cfg sec st = { st with errors := st.errors + 1 } := by
    unfold calcSectionParameters
    rw [hG]
  have h2 : buildSection cfg ru st = { st with errors := st.errors + 1 } := by
    unfold buildSection
    rw [if_pos ⟨hru, by rw [hG]; rfl⟩]
  exact ⟨h1, h2, by rw [h1], by rw [h1], by rw [h2], by rw [h2]⟩

/-- Witness for C4 at a concrete empty-mesh-catalog configuration. -/
theorem claim_C4_empty_mesh_catalog_witness :
    calcSectionParameters cfgEmptyMesh secGrid1 (st0 0) =
      { st0 0 with errors := (st0 0).errors + 1 } ∧
    buildSection cfgEmptyMesh ruleYP4 (st0 0) =
      { st0 0 with errors := (st0 0).errors + 1 } ∧
    (calcSectionParameters cfgEmptyMesh secGrid1 (st0 0)).emitted = (st0 0).emitted ∧
    (calcSectionParameters cfgEmptyMesh secGrid1 (st0 0)).TotalInstances =
      (st0 0).TotalInstances ∧
    (buildSection cfgEmptyMesh ruleYP4 (st0 0)).emitted = (st0 0).emitted ∧
    (buildSection cfgEmptyMesh ruleYP4 (st0 0)).TotalInstances = (st0 0).TotalInstances :=
  claim_C4_empty_mesh_catalog cfgEmptyMesh secGrid1 ruleYP4 (st0 0) rfl rfl

end ArenaGen

namespace ArenaGen

/-- The integer-division interior angle lies in [0, 179] for at least 3
sides. -/
theorem interior_angle_bounds (n : Int) (hn : 3 ≤ n) :
    0 ≤ Int.tdiv ((n - 2) * 180) n ∧ Int.tdiv ((n - 2) * 180) n ≤ 179 := by
  have ha : (0 : ℤ) ≤ (n - 2) * 180 := by nlinarith
  have hb : (0 : ℤ) ≤ n := by omega
  rw [Int.tdiv_eq_ediv ha hb]
  constructor
  · exact Int.ediv_nonneg ha hb
  · have h1 : (n - 2) * 180 / n < 180 := by
      rw [Int.ediv_lt_iff_lt_mul (by omega)]
      nlinarith
    omega

/-- Cosine of half the integer interior angle (in degrees, converted to
radians) is positive for at least 3 sides. -/
theorem cos_half_interior_pos (n : Int) (hn : 3 ≤ n) :
    0 < Real.cos (deg2rad (((Int.tdiv ((n - 2) * 180) n : ℤ) : ℝ) / 2)) := by
  obtain ⟨h0, h1⟩ := interior_angle_bounds n hn
  have h0R : (0 : ℝ) ≤ ((Int.tdiv ((n - 2) * 180) n : ℤ) : ℝ) := by exact_mod_cast h0
  have h1R : ((Int.tdiv ((n - 2) * 180) n : ℤ) : ℝ) ≤ 179 := by exact_mod_cast h1
  apply Real.cos_pos_of_mem_Ioo
  constructor
  · unfold deg2rad
    nlinarith [Real.pi_pos]
  · unfold deg2rad
    nlinarith [Real.pi_pos]

/-- DegreesToRadians of (90 - x) is pi/2 minus DegreesToRadians of x, so
the sine used by the polygon-led radius derivation is the cosine used by
CalculateOpposite. -/
theorem sin_ninety_sub_deg (x : ℝ) :
    Real.sin (deg2rad (90 - x)) = Real.cos (deg2rad x) := by
  have h : deg2rad (90 - x) = Real.pi / 2 - deg2rad x := by
    unfold deg2rad
    ring
  rw [h, Real.sin_pi_div_two_sub]

/-- Branch projections of the deriver under PolygonLeadByDimensions. -/
theorem calc_polyDims_fields (cfg : ArenaConfig) (sec : FArenaSection) (st : ArenaState)
    (g : FArenaMeshGroupConfig) (gs : List FArenaMeshGroupConfig)
    (hG : cfg.MeshGroups = g :: gs)
    (hB : sec.SectionBuildOrderRules = EArenaBuildOrderRules.PolygonLeadByDimensions) :
    (calcSectionParameters cfg sec st).SideLength =
      (getMG cfg ((findFocus sec.BuildRules EArenaSectionType.Polygon).getD
        st.FocusPolygonIndex)).MeshDimensions.x * ((sec.Targets.TargetTilesPerSide : ℤ) : ℝ) ∧
    (calcSectionParameters cfg sec st).InscribedRadius =
      ((calcSectionParameters cfg sec st).SideLength / 2) /
        Real.sin (deg2rad (90 - (calcSectionParameters cfg sec st).InteriorAngle / 2)) := by
  obtain ⟨bor, tgts, rules⟩ := sec
  simp only at hB
  subst hB
  simp only [calcSectionParameters, hG]
  exact ⟨trivial, trivial⟩

/-- C7: under PolygonLeadByDimensions the derived SideLength is exactly
the polygon mesh size times the target tiles per side, and feeding the
derived InscribedRadius back through 2 * Opposite(radius, interior/2)
reconstructs SideLength exactly (hence within the claimed 1e-4 relative
tolerance). -/
theorem claim_C7_roundtrip (cfg : ArenaConfig) (sec : FArenaSection) (st : ArenaState)
    (g : FArenaMeshGroupConfig) (gs : List FArenaMeshGroupConfig)
    (hG : cfg.MeshGroups = g :: gs) (hMax : 3 ≤ cfg.MaxSides)
    (hB : sec.SectionBuildOrderRules = EArenaBuildOrderRules.PolygonLeadByDimensions) :
    (calcSectionParameters cfg sec st).SideLength =
      (getMG cfg ((findFocus sec.BuildRules EArenaSectionType.Polygon).getD
        st.FocusPolygonIndex)).MeshDimensions.x * ((sec.Targets.TargetTilesPerSide : ℤ) : ℝ) ∧
    2 * CalculateOpposite (calcSectionParameters cfg sec st).InscribedRadius
        ((calcSectionParameters cfg sec st).InteriorAngle / 2) =
      (calcSectionParameters cfg sec st).SideLength ∧
    |2 * CalculateOpposite (calcSectionParameters cfg sec st).InscribedRadius
        ((calcSectionParameters cfg sec st).InteriorAngle / 2) -
      (calcSectionParameters cfg sec st).SideLength| ≤
      (1 / 10000) * |(calcSectionParameters cfg sec st).SideLength| := by
  obtain ⟨hS, hR⟩ := calc_polyDims_fields cfg sec st g gs hG hB
  obtain ⟨hA, hI, _, _, _⟩ := calc_common_fields cfg sec st g gs hG
  have hn3 : 3 ≤ iclamp sec.Targets.TargetPolygonSides 3 cfg.MaxSides :=
    (iclamp_bounds _ _ _ hMax).1
  have hcos : 0 < Real.cos (deg2rad ((calcSectionParameters cfg sec st).InteriorAngle / 2)) := by
    rw [hI]
    exact cos_half_interior_pos _ hn3
  have hrt : 2 * CalculateOpposite (calcSectionParameters cfg sec st).InscribedRadius
      ((calcSectionParameters cfg sec st).InteriorAngle / 2) =
      (calcSectionParameters cfg sec st).SideLength := by
    unfold CalculateOpposite
    rw [hR, sin_ninety_sub_deg]
    field_simp
    ring
  refine ⟨hS, hrt, ?_⟩
  rw [hrt]
  simp

/-- Witness for C7 at 4 sides, 2 tiles per side, 500-unit default polygon
mesh. -/
theorem claim_C7_roundtrip_witness :
    (calcSectionParameters cfgC1 secPolyDim (st0 0)).SideLength =
      (getMG cfgC1 ((findFocus secPolyDim.BuildRules EArenaSectionType.Polygon).getD
        ((st0 0).FocusPolygonIndex))).MeshDimensions.x *
        ((secPolyDim.Targets.TargetTilesPerSide : ℤ) : ℝ) ∧
    2 * CalculateOpposite (calcSectionParameters cfgC1 secPolyDim (st0 0)).InscribedRadius
        ((calcSectionParameters cfgC1 secPolyDim (st0 0)).InteriorAngle / 2) =
      (calcSectionParameters cfgC1 secPolyDim (st0 0)).SideLength ∧
    |2 * CalculateOpposite (calcSectionParameters cfgC1 secPolyDim (st0 0)).InscribedRadius
        ((calcSectionParameters cfgC1 secPolyDim (st0 0)).InteriorAngle / 2) -
      (calcSectionParameters cfgC1 secPolyDim (st0 0)).SideLength| ≤
      (1 / 10000) * |(calcSectionParameters cfgC1 secPolyDim (st0 0)).SideLength| :=
  claim_C7_roundtrip cfgC1 secPolyDim (st0 0) mgCube [] rfl (by decide) rfl

end ArenaGen

namespace ArenaGen

/-- The stream seed advances by exactly one MutateSeed step per RandRange
draw. -/
theorem sRandRange_snd (s : Nat) (lo hi : Int) : (sRandRange s lo hi).2 = mutateSeed s := by
  simp only [sRandRange]
  split <;> rfl

/-- Evaluation of BuildSection on the one-cell grid configuration cfgC1
with a quantized-rotation rule: one RandRange draw, one emitted placement
whose yaw is (360/yp) times the drawn value. -/
theorem buildGridYP_eval (yp : Int) (st : ArenaState)
    (hprev : st.PreviousMeshSize = ⟨0, 0, 0⟩ ∨ st.PreviousMeshSize = ⟨100, 100, 100⟩)
    (htiles : st.TilesPerArenaSide = 1) (hdims : st.ArenaDimensions = 1)
    (hptps : st.PreviousTilesPerSide = 0 ∨ st.PreviousTilesPerSide = 1)
    (hused : st.UsedGroupIndices = []) (hbuck : st.MeshInstanceBuckets = [])
    (hz : st.OriginOffset.z = 0) :
    buildSection cfgC1 { ruleYP4 with YawPossibilities := yp } st =
    { st with
      streamSeed := mutateSeed st.streamSeed
      TotalInstances := st.TotalInstances + 1
      OriginOffset := ⟨-50, -50, 0⟩
      PreviousMeshSize := ⟨100, 100, 100⟩
      PreviousTilesPerSide := 1
      UsedGroupIndices := [0]
      MeshInstanceBuckets := [1]
      emitted := st.emitted ++
        [⟨⟨0, (360 / ((yp : ℤ) : ℝ)) *
            (((sRandRange st.streamSeed 0 (iclamp (yp - 1) 2 720)).1 : ℤ) : ℝ), 0⟩,
          ⟨0, 0, 0⟩, ⟨1, 1, 1⟩, PlacePayload.mesh 0 0⟩] } := by
  have hr1 : List.range 1 = [0] := rfl
  obtain ⟨sd, ti, bor, oo, pms, ptp, plp, fg, fp, ir, ap, ia, ea, sl, asid, ad, tps, ug, mb, sa, em, er⟩ := st
  simp only at htiles hdims hused hbuck hz
  subst htiles hdims hused hbuck
  obtain ⟨ox, oy, oz⟩ := oo
  simp only at hz
  subst hz
  rcases hprev with hprev | hprev <;> rcases hptps with hptps | hptps <;>
    (simp only at hprev hptps; subst hprev hptps;
     simp [buildSection, gridCell, emitMesh, emitActor, drawRotation, registerMeshGroup,
       updateOriginOffset, cellOriginType, getMG, getAG, resolvedGroupIdx, resolvedMeshSize,
       resolvedMeshScale, actorCatalogBad, cfgC1, mgCube, ruleYP4, iclamp,
       OffsetMeshToCenter, OriginOffsetScalar, PlacementWarpingConcavity,
       PlacementWarpingDirectional, findFocus, hr1] <;>
     norm_num [sRandRange_snd, FVec3.ext_iff])

end ArenaGen

namespace ArenaGen

/-- Evaluation of the parameter deriver on the cfgC1 / secGrid1
configuration: 4 sides, supplementary 90/90 angles, a 1 x 1 grid, zero
radius and one tile per side. -/
theorem calcC1_eval (st : ArenaState) (hfp : st.FocusPolygonIndex = 0) :
    calcSectionParameters cfgC1 secGrid1 st =
    { st with
      OriginOffset := ⟨0, 0, 0⟩
      ArenaSides := 4
      InteriorAngle := 90
      ExteriorAngle := 90
      FocusGridIndex := 0
      FocusPolygonIndex := 0
      CurrentBOR := EArenaBuildOrderRules.GridLeadsByDimensions
      ArenaDimensions := 1
      InscribedRadius := 0
      SideLength := 0
      TilesPerArenaSide := 1
      Apothem := 0 } := by
  have ht : Int.tdiv ((4 - 2) * 180) 4 = 90 := by decide
  obtain ⟨sd, ti, bor, oo, pms, ptp, plp, fg, fp, ir, ap, ia, ea, sl, asid, ad, tps, ug, mb, sa, em, er⟩ := st
  simp only at hfp
  subst hfp
  simp [calcSectionParameters, cfgC1, secGrid1, mgCube, ruleYP4, findFocus, getMG,
    iclamp, CalculateOpposite, CalculateAdjacent, ht]
  norm_num [(by decide : Int.tdiv 360 4 = 90)]

/-- GenerateArena on cfgC1 is one wipe, one derivation and one grid
build. -/
theorem generateC1_unfold (st : ArenaState) :
    generateArena cfgC1 st =
      buildSection cfgC1 ruleYP4 (calcSectionParameters cfgC1 secGrid1 (wipeArena st)) := by
  unfold generateArena buildSections runSection
  simp [cfgC1, secGrid1]

/-- One GenerateArena pass on cfgC1 emits exactly one placement, whose yaw
is 90 times the RandRange(0,3) draw made at the incoming stream seed, and
advances the stream by one step.  The emitted sequence therefore depends
on the stream seed at entry, which WipeArena does not reset. -/
theorem generateC1_emitted (st : ArenaState) :
    (generateArena cfgC1 st).emitted =
      [⟨⟨0, 90 * (((sRandRange st.streamSeed 0 3).1 : ℤ) : ℝ), 0⟩,
        ⟨0, 0, 0⟩, ⟨1, 1, 1⟩, PlacePayload.mesh 0 0⟩] ∧
    (generateArena cfgC1 st).streamSeed = mutateSeed st.streamSeed := by
  rw [generateC1_unfold]
  have hcalc := calcC1_eval (wipeArena st) rfl
  rw [hcalc]
  have hrule : ({ ruleYP4 with YawPossibilities := (4 : ℤ) } : FArenaSectionBuildRules) = ruleYP4 := rfl
  have hbuild := buildGridYP_eval 4
    { wipeArena st with
      OriginOffset := ⟨0, 0, 0⟩
      ArenaSides := 4
      InteriorAngle := 90
      ExteriorAngle := 90
      FocusGridIndex := 0
      FocusPolygonIndex := 0
      CurrentBOR := EArenaBuildOrderRules.GridLeadsByDimensions
      ArenaDimensions := 1
      InscribedRadius := 0
      SideLength := 0
      TilesPerArenaSide := 1
      Apothem := 0 }
    (Or.inl rfl) rfl rfl (Or.inl rfl) rfl rfl rfl
  rw [hrule] at hbuild
  rw [hbuild]
  simp [wipeArena]
  norm_num [iclamp]

/-- C1 counterexample: with the fixed seed 0 in the initial state, two
successive GenerateArena passes (each beginning with its own WipeArena)
emit different PlacementTransform sequences, because the second pass
continues the random stream where the first left it (draw 0, then
draw 3). -/
theorem claim_C1_counterexample :
    (generateArena cfgC1 (generateArena cfgC1 (st0 0))).emitted ≠
      (generateArena cfgC1 (st0 0)).emitted := by
  obtain ⟨h1e, h1s⟩ := generateC1_emitted (st0 0)
  obtain ⟨h2e, _⟩ := generateC1_emitted (generateArena cfgC1 (st0 0))
  rw [h1e, h2e, h1s]
  have hseed : (st0 0).streamSeed = 0 := rfl
  rw [hseed]
  have v1 : (sRandRange 0 0 3).1 = 0 := by decide
  have v2 : (sRandRange (mutateSeed 0) 0 3).1 = 3 := by decide
  rw [v1, v2]
  intro h
  simp only [List.cons.injEq, PlacementTransform.mk.injEq, FRot.mk.injEq] at h
  have := h.1.1.2.1
  norm_num at this

end ArenaGen

namespace ArenaGen

/-- Two states with the same stream seed and error count have the same
wipe result up to the derived-geometry fields (which WipeArena does not
reset). -/
theorem wipe_setDerived (st stB : ArenaState) (hseed : st.streamSeed = stB.streamSeed)
    (herr : st.errors = stB.errors) :
    wipeArena st = setDerived (wipeArena stB) st.InscribedRadius st.Apothem
      st.InteriorAngle st.ExteriorAngle st.SideLength st.ArenaSides
      st.ArenaDimensions st.TilesPerArenaSide := by
  apply ArenaState.ext <;> simp [wipeArena, setDerived, hseed, herr]

/-- On a nonempty mesh catalog the deriver overwrites every
derived-geometry field without reading any of them, so the incoming
derived values are irrelevant. -/
theorem calc_setDerived (cfg : ArenaConfig) (sec : FArenaSection) (s : ArenaState)
    (g : FArenaMeshGroupConfig) (gs : List FArenaMeshGroupConfig)
    (hG : cfg.MeshGroups = g :: gs) (a b c d e : ℝ) (n m t : Int) :
    calcSectionParameters cfg sec (setDerived s a b c d e n m t) =
      calcSectionParameters cfg sec s := by
  obtain ⟨bor, tgts, rules⟩ := sec
  simp only [calcSectionParameters, hG]
  cases bor <;> (apply ArenaState.ext <;> simp [setDerived])

/-- Sections are insensitive to the incoming derived-geometry fields when
the mesh catalog is nonempty: the derivation at the start of the section
overwrites them. -/
theorem runSection_setDerived (cfg : ArenaConfig) (s : ArenaState) (sec : FArenaSection)
    (g : FArenaMeshGroupConfig) (gs : List FArenaMeshGroupConfig)
    (hG : cfg.MeshGroups = g :: gs) (a b c d e : ℝ) (n m t : Int) :
    runSection cfg (setDerived s a b c d e n m t) sec = runSection cfg s sec := by
  unfold runSection
  rw [calc_setDerived cfg sec s g gs hG]

/-- BuildSections emits the same sequence whatever derived-geometry values
are left in the state, as long as the mesh catalog is nonempty. -/
theorem buildSections_setDerived_emitted (cfg : ArenaConfig) (s : ArenaState)
    (g : FArenaMeshGroupConfig) (gs : List FArenaMeshGroupConfig)
    (hG : cfg.MeshGroups = g :: gs) (a b c d e : ℝ) (n m t : Int) :
    (buildSections cfg (setDerived s a b c d e n m t)).emitted =
      (buildSections cfg s).emitted := by
  unfold buildSections
  have hne : ¬(cfg.MeshGroups.isEmpty = true ∧ cfg.ActorGroups.isEmpty = true) := by
    simp [hG]
  rw [if_neg hne, if_neg hne]
  cases hS : cfg.SectionList with
  | nil => simp [hS, setDerived]
  | cons sec rest =>
    rw [if_neg (by simp : ¬((sec :: rest : List FArenaSection).isEmpty = true)),
        if_neg (by simp : ¬((sec :: rest : List FArenaSection).isEmpty = true))]
    rw [List.foldl_cons, List.foldl_cons]
    rw [runSection_setDerived cfg s sec g gs hG]

/-- C1 (amended): the PlacementTransform sequence of a GenerateArena pass
is a function of the configuration and of the stream seed at entry: two
passes entered with equal stream seeds (and equal error counters) emit
bit-identical sequences.  Two SUCCESSIVE passes need not, because
WipeArena does not reset the seeded stream, so the second pass continues
it (see the counterexample). -/
theorem claim_C1_amended (cfg : ArenaConfig) (st stB : ArenaState)
    (g : FArenaMeshGroupConfig) (gs : List FArenaMeshGroupConfig)
    (hG : cfg.MeshGroups = g :: gs)
    (hseed : st.streamSeed = stB.streamSeed) (herr : st.errors = stB.errors) :
    (generateArena cfg st).emitted = (generateArena cfg stB).emitted := by
  unfold generateArena
  rw [wipe_setDerived st stB hseed herr]
  exact buildSections_setDerived_emitted cfg (wipeArena stB) g gs hG _ _ _ _ _ _ _ _

/-- Witness for the amended C1: two states that differ in everything but
the stream seed and error counter produce the same emitted sequence. -/
theorem claim_C1_amended_witness :
    (generateArena cfgC1 (st0 0)).emitted =
      (generateArena cfgC1 { st0 0 with TotalInstances := 5, ArenaSides := 9 }).emitted :=
  claim_C1_amended cfgC1 (st0 0) { st0 0 with TotalInstances := 5, ArenaSides := 9 }
    mgCube [] rfl rfl rfl

end ArenaGen

namespace ArenaGen

/-- RandRange(0, hi) is inclusive on [0, hi] for nonnegative hi. -/
theorem sRandRange_bounds (s : Nat) (hi : Int) (hhi : 0 ≤ hi) :
    0 ≤ (sRandRange s 0 hi).1 ∧ (sRandRange s 0 hi).1 ≤ hi := by
  simp only [sRandRange]
  rw [if_pos (by omega : (0 : ℤ) < hi - 0 + 1)]
  constructor
  · simp only [zero_add]
    exact Int.ofNat_nonneg _
  · simp only [zero_add]
    refine le_trans (Int.ofNat_le.mpr (min_le_right _ _)) ?_
    omega

/-- C5 (amended): under RotateByYP the drawn integer lies in
[0, clamp(yawPossibilities - 1, 2, 720)] inclusive, which equals
[0, yawPossibilities - 1] exactly when 3 <= yawPossibilities <= 721 (for
yawPossibilities = 2 the bound is widened to 2, see the counterexample);
the yaw increment is (360 / yawPossibilities) * value, and for
yawPossibilities = 4 the increment is always one of 0, 90, 180, 270. -/
theorem claim_C5_amended (seed : Nat) (yp : Int) (h1 : 3 ≤ yp) (h2 : yp ≤ 721) :
    0 ≤ (sRandRange seed 0 (iclamp (yp - 1) 2 720)).1 ∧
    (sRandRange seed 0 (iclamp (yp - 1) 2 720)).1 ≤ yp - 1 ∧
    (360 / ((4 : ℤ) : ℝ)) * (((sRandRange seed 0 (iclamp ((4 : ℤ) - 1) 2 720)).1 : ℤ) : ℝ) ∈
      ({0, 90, 180, 270} : Set ℝ) := by
  have hcl : iclamp (yp - 1) 2 720 = yp - 1 := by
    unfold iclamp
    split_ifs <;> omega
  rw [hcl]
  obtain ⟨hb1, hb2⟩ := sRandRange_bounds seed (yp - 1) (by omega)
  refine ⟨hb1, hb2, ?_⟩
  have hic : iclamp ((4 : ℤ) - 1) 2 720 = 3 := by decide
  rw [hic]
  obtain ⟨hv0, hv3⟩ := sRandRange_bounds seed 3 (by omega)
  set v := (sRandRange seed 0 3).1 with hv
  interval_cases v <;> norm_num

/-- Witness for the amended C5 at seed 0 and 5 yaw possibilities. -/
theorem claim_C5_amended_witness :
    0 ≤ (sRandRange 0 0 (iclamp ((5 : ℤ) - 1) 2 720)).1 ∧
    (sRandRange 0 0 (iclamp ((5 : ℤ) - 1) 2 720)).1 ≤ (5 : ℤ) - 1 ∧
    (360 / ((4 : ℤ) : ℝ)) * (((sRandRange 0 0 (iclamp ((4 : ℤ) - 1) 2 720)).1 : ℤ) : ℝ) ∈
      ({0, 90, 180, 270} : Set ℝ) :=
  claim_C5_amended 0 5 (by decide) (by decide)

/-- C5 counterexample: with yawPossibilities = 2 the code clamps the
RandRange upper bound UP to 2, so the draw can be 2, outside the claimed
range [0, 1]; at stream seed 4 this actually happens, and the emitted
cell receives yaw 360, outside the claimed increment range
[0, (360/2)*(2-1)] = [0, 180]. -/
theorem claim_C5_counterexample :
    (sRandRange 4 0 (iclamp (ruleYP2.YawPossibilities - 1) 2 720)).1 = 2 ∧
    ¬ ((sRandRange 4 0 (iclamp (ruleYP2.YawPossibilities - 1) 2 720)).1 ≤
        ruleYP2.YawPossibilities - 1) ∧
    (buildSection cfgC1 ruleYP2 (stDirect 4 ⟨100, 100, 100⟩)).emitted.map
      (fun p => p.rot.yaw) = [360] ∧
    ¬ ((360 : ℝ) ≤ (360 / ((ruleYP2.YawPossibilities : ℤ) : ℝ)) *
        (((ruleYP2.YawPossibilities : ℤ) : ℝ) - 1)) := by
  refine ⟨by decide, by decide, ?_, ?_⟩
  · have hbuild : buildSection cfgC1 ruleYP2 (stDirect 4 ⟨100, 100, 100⟩) = _ :=
      buildGridYP_eval 2 (stDirect 4 ⟨100, 100, 100⟩)
        (Or.inr rfl) rfl rfl (Or.inr rfl) rfl rfl rfl
    rw [hbuild]
    have hv : (sRandRange 4 0 (iclamp 1 2 720)).1 = 2 := by decide
    simp [stDirect, st0, hv]
  · simp [ruleYP2, ruleYP4]
    norm_num

end ArenaGen

namespace ArenaGen

/-- Emitting a mesh instance never moves the origin offset. -/
theorem emitMesh_OriginOffset (st : ArenaState) (r m : Nat) (p : PlacementTransform) :
    (emitMesh st r m p).OriginOffset = st.OriginOffset := by
  unfold emitMesh
  split <;> rfl

/-- Spawning an actor never moves the origin offset. -/
theorem emitActor_OriginOffset (st : ArenaState) (c : Nat) (p : PlacementTransform) :
    (emitActor st c p).OriginOffset = st.OriginOffset := rfl

/-- A grid cell never moves the origin offset. -/
theorem gridCell_OriginOffset (cfg : ArenaConfig) (cx : SectionCtx) (st : ArenaState)
    (t r c : Nat) : (gridCell cfg cx st t r c).OriginOffset = st.OriginOffset := by
  simp only [gridCell]
  split <;> simp [emitMesh_OriginOffset, emitActor_OriginOffset]

/-- A polygon cell never moves the origin offset. -/
theorem polyCell_OriginOffset (cfg : ArenaConfig) (cx : SectionCtx)
    (lcp fv rv : FVec3) (yaw : ℝ) (st : ArenaState) (l h : Nat) :
    (polyCell cfg cx lcp fv rv yaw st l h).OriginOffset = st.OriginOffset := by
  simp only [polyCell]
  split <;> simp [emitMesh_OriginOffset, emitActor_OriginOffset]

/-- Folding a state transformer that preserves the origin offset preserves
it. -/
theorem foldl_preserves_origin {β : Type} (f : ArenaState → β → ArenaState)
    (hf : ∀ s b, (f s b).OriginOffset = s.OriginOffset) :
    ∀ (l : List β) (s : ArenaState), (l.foldl f s).OriginOffset = s.OriginOffset
  | [], _ => rfl
  | b :: bs, s => by
    rw [List.foldl_cons, foldl_preserves_origin f hf bs (f s b), hf]

/-- Pair version of foldl_preserves_origin for the polygon loops. -/
theorem foldl_preserves_origin_pair {β : Type}
    (f : ArenaState × FVec3 → β → ArenaState × FVec3)
    (hf : ∀ a b, ((f a b).1).OriginOffset = (a.1).OriginOffset) :
    ∀ (l : List β) (a : ArenaState × FVec3),
      ((l.foldl f a).1).OriginOffset = (a.1).OriginOffset
  | [], _ => rfl
  | b :: bs, a => by
    rw [List.foldl_cons, foldl_preserves_origin_pair f hf bs (f a b), hf]

/-- A polygon tile never moves the origin offset. -/
theorem polyTile_OriginOffset (cfg : ArenaConfig) (cx : SectionCtx)
    (fv rv : FVec3) (yaw : ℝ) (acc : ArenaState × FVec3) (l : Nat) :
    ((polyTile cfg cx fv rv yaw acc l).1).OriginOffset = (acc.1).OriginOffset := by
  simp only [polyTile]
  exact foldl_preserves_origin _ (fun s b => polyCell_OriginOffset cfg cx _ fv rv yaw s l b) _ _

/-- A polygon side never moves the origin offset. -/
theorem polySide_OriginOffset (cfg : ArenaConfig) (cx : SectionCtx) (n : Int)
    (ext : ℝ) (acc : ArenaState × FVec3) (sideIdx : Nat) :
    ((polySide cfg cx n ext acc sideIdx).1).OriginOffset = (acc.1).OriginOffset := by
  simp only [polySide]
  exact foldl_preserves_origin_pair _
    (fun a b => polyTile_OriginOffset cfg cx _ _ _ a b) _ _

/-- Registration leaves the origin offset alone. -/
theorem registerMeshGroup_OriginOffset (cfg : ArenaConfig) (g : Int) (st : ArenaState) :
    ((registerMeshGroup cfg g st).2).OriginOffset = st.OriginOffset := by
  unfold registerMeshGroup
  split <;> rfl

/-- Every branch of the origin-offset recomputation keeps the accumulated
Z component. -/
theorem updateOriginOffset_z (cfg : ArenaConfig) (ru : FArenaSectionBuildRules)
    (st : ArenaState) (ms sc : FVec3) (ct : Int) :
    (updateOriginOffset cfg ru st ms sc ct).z = st.OriginOffset.z := by
  obtain ⟨mg, ag, sl, pl, mxs, mxt⟩ := cfg
  simp only [updateOriginOffset]
  cases pl <;> split_ifs <;> rfl

end ArenaGen

namespace ArenaGen

/-- C8: whenever BuildSection actually builds (its catalog guards pass and
SectionAmount is at least 1), it raises OriginOffset.Z by exactly
MeshSize.Z * SectionAmount * OffsetByHeightIncrement when
bUpdatesOriginOffsetHeight is set, and leaves OriginOffset.Z unchanged
when the flag is unset, for both section types. -/
theorem claim_C8_origin_height (cfg : ArenaConfig) (ru : FArenaSectionBuildRules)
    (st : ArenaState)
    (h1 : ¬(ru.AssetToPlace = ETypeToPlace.StaticMeshes ∧ cfg.MeshGroups.isEmpty = true))
    (h2 : ¬(ru.AssetToPlace = ETypeToPlace.Actors ∧ actorCatalogBad cfg = true))
    (hAmt : 1 ≤ ru.SectionAmount) :
    (buildSection cfg ru st).OriginOffset.z = st.OriginOffset.z +
      (if ru.bUpdatesOriginOffsetHeight = true then
        (resolvedMeshSize cfg ru).z * ((ru.SectionAmount : ℤ) : ℝ) * ru.OffsetByHeightIncrement
       else 0) := by
  unfold buildSection
  rw [if_neg h1, if_neg h2]
  have hamt : ¬(ru.SectionAmount < 1) := by omega
  simp only [if_neg hamt]
  rcases hsty : ru.SectionType with hty | hty
  all_goals rcases hflag : ru.bUpdatesOriginOffsetHeight with hfv | hfv
  all_goals simp only [hsty, hflag]
  all_goals simp only [if_true, if_false, Bool.false_eq_true, Bool.true_eq_false]
  · -- HorizontalGrid, flag false
    rw [foldl_preserves_origin _ (fun s t => foldl_preserves_origin _
      (fun s2 r => foldl_preserves_origin _
        (fun s3 c => gridCell_OriginOffset _ _ _ _ _ _) _ _) _ _)]
    split
    · rw [registerMeshGroup_OriginOffset]
      simp [updateOriginOffset_z]
    · simp [updateOriginOffset_z]
  · -- HorizontalGrid, flag true
    rw [foldl_preserves_origin _ (fun s t => foldl_preserves_origin _
      (fun s2 r => foldl_preserves_origin _
        (fun s3 c => gridCell_OriginOffset _ _ _ _ _ _) _ _) _ _)]
    split
    · rw [registerMeshGroup_OriginOffset]
      simp [updateOriginOffset_z]
    · simp [updateOriginOffset_z]
  · -- Polygon, flag false
    rw [foldl_preserves_origin_pair _
      (fun a b => polySide_OriginOffset _ _ _ _ a b)]
    split
    · rw [registerMeshGroup_OriginOffset]
      simp [updateOriginOffset_z]
    · simp [updateOriginOffset_z]
  · -- Polygon, flag true
    rw [foldl_preserves_origin_pair _
      (fun a b => polySide_OriginOffset _ _ _ _ a b)]
    split
    · rw [registerMeshGroup_OriginOffset]
      simp [updateOriginOffset_z]
    · simp [updateOriginOffset_z]

end ArenaGen

namespace ArenaGen

/-- Witness for C8: a three-level grid rule with the height flag set. -/
theorem claim_C8_origin_height_witness :
    (buildSection cfgC1
      { ruleYP4 with bUpdatesOriginOffsetHeight := true, SectionAmount := 3 }
      (st0 5)).OriginOffset.z = (st0 5).OriginOffset.z +
      (if ({ ruleYP4 with bUpdatesOriginOffsetHeight := true, SectionAmount := 3 }
            : FArenaSectionBuildRules).bUpdatesOriginOffsetHeight = true then
        (resolvedMeshSize cfgC1
            { ruleYP4 with bUpdatesOriginOffsetHeight := true, SectionAmount := 3 }).z *
          ((({ ruleYP4 with bUpdatesOriginOffsetHeight := true, SectionAmount := 3 }
              : FArenaSectionBuildRules).SectionAmount : ℤ) : ℝ) *
          ({ ruleYP4 with bUpdatesOriginOffsetHeight := true, SectionAmount := 3 }
            : FArenaSectionBuildRules).OffsetByHeightIncrement
       else 0) :=
  claim_C8_origin_height cfgC1
    { ruleYP4 with bUpdatesOriginOffsetHeight := true, SectionAmount := 3 } (st0 5)
    (by simp [cfgC1, ruleYP4]) (by simp [ruleYP4]) (by decide)

end ArenaGen

namespace ArenaGen

/-- Predicate for C10: an emitted placement is an actor spawn of the class
ActorGroups[0].ClassesToSpawn[0] with the resolved group scale. -/
def isFirstClassActorSpawn (cfg : ArenaConfig) (scale : FVec3) (p : PlacementTransform) : Prop :=
  p.payload = PlacePayload.actor (spawnedActorClass cfg) ∧ p.scale = scale

/-- A grid cell of an Actors rule only appends actor spawns of the first
class of actor group 0. -/
theorem gridCell_emitted_actor (cfg : ArenaConfig) (cx : SectionCtx) (st : ArenaState)
    (t r c : Nat) (hA : cx.ru.AssetToPlace = ETypeToPlace.Actors) :
    ∀ p ∈ (gridCell cfg cx st t r c).emitted,
      p ∈ st.emitted ∨ isFirstClassActorSpawn cfg cx.meshScale p := by
  simp only [gridCell, hA]
  intro p hp
  simp only [emitActor, List.mem_append, List.mem_singleton] at hp
  rcases hp with hp | hp
  · exact Or.inl hp
  · subst hp
    exact Or.inr ⟨rfl, rfl⟩

/-- A polygon cell of an Actors rule only appends actor spawns of the
first class of actor group 0. -/
theorem polyCell_emitted_actor (cfg : ArenaConfig) (cx : SectionCtx)
    (lcp fv rv : FVec3) (yaw : ℝ) (st : ArenaState) (l h : Nat)
    (hA : cx.ru.AssetToPlace = ETypeToPlace.Actors) :
    ∀ p ∈ (polyCell cfg cx lcp fv rv yaw st l h).emitted,
      p ∈ st.emitted ∨ isFirstClassActorSpawn cfg cx.meshScale p := by
  simp only [polyCell, hA]
  intro p hp
  simp only [emitActor, List.mem_append, List.mem_singleton] at hp
  rcases hp with hp | hp
  · exact Or.inl hp
  · subst hp
    exact Or.inr ⟨rfl, rfl⟩

/-- Folding a step that only appends Q-placements only appends
Q-placements. -/
theorem foldl_emit_inv {β : Type} (Q : PlacementTransform → Prop)
    (f : ArenaState → β → ArenaState)
    (hf : ∀ s b p, p ∈ (f s b).emitted → p ∈ s.emitted ∨ Q p) :
    ∀ (l : List β) (s : ArenaState) (p : PlacementTransform),
      p ∈ (l.foldl f s).emitted → p ∈ s.emitted ∨ Q p
  | [], _, _, hp => Or.inl hp
  | b :: bs, s, p, hp => by
    rw [List.foldl_cons] at hp
    rcases foldl_emit_inv Q f hf bs (f s b) p hp with h | h
    · exact hf s b p h
    · exact Or.inr h

/-- Pair version of foldl_emit_inv for the polygon loops. -/
theorem foldl_emit_inv_pair {β : Type} (Q : PlacementTransform → Prop)
    (f : ArenaState × FVec3 → β → ArenaState × FVec3)
    (hf : ∀ a b p, p ∈ ((f a b).1).emitted → p ∈ (a.1).emitted ∨ Q p) :
    ∀ (l : List β) (a : ArenaState × FVec3) (p : PlacementTransform),
      p ∈ ((l.foldl f a).1).emitted → p ∈ (a.1).emitted ∨ Q p
  | [], _, _, hp => Or.inl hp
  | b :: bs, a, p, hp => by
    rw [List.foldl_cons] at hp
    rcases foldl_emit_inv_pair Q f hf bs (f a b) p hp with h | h
    · exact hf a b p h
    · exact Or.inr h

/-- A polygon tile of an Actors rule only appends actor spawns of the
first class of actor group 0. -/
theorem polyTile_emitted_actor (cfg : ArenaConfig) (cx : SectionCtx)
    (fv rv : FVec3) (yaw : ℝ) (acc : ArenaState × FVec3) (l : Nat)
    (hA : cx.ru.AssetToPlace = ETypeToPlace.Actors) :
    ∀ p ∈ ((polyTile cfg cx fv rv yaw acc l).1).emitted,
      p ∈ (acc.1).emitted ∨ isFirstClassActorSpawn cfg cx.meshScale p := by
  simp only [polyTile]
  exact foldl_emit_inv _ _
    (fun s b p hp => polyCell_emitted_actor cfg cx _ fv rv yaw s l b hA p hp) _ _

/-- A polygon side of an Actors rule only appends actor spawns of the
first class of actor group 0. -/
theorem polySide_emitted_actor (cfg : ArenaConfig) (cx : SectionCtx) (n : Int)
    (ext : ℝ) (acc : ArenaState × FVec3) (sideIdx : Nat)
    (hA : cx.ru.AssetToPlace = ETypeToPlace.Actors) :
    ∀ p ∈ ((polySide cfg cx n ext acc sideIdx).1).emitted,
      p ∈ (acc.1).emitted ∨ isFirstClassActorSpawn cfg cx.meshScale p := by
  simp only [polySide]
  exact foldl_emit_inv_pair _ _
    (fun a b p hp => polyTile_emitted_actor cfg cx _ _ _ a b hA p hp) _ _

end ArenaGen

namespace ArenaGen

/-- C10: every placement emitted by BuildSection for an Actors rule (this
covers both section types) is an actor spawn of
ActorGroups[0].ClassesToSpawn[0] - the first class of actor group 0 -
regardless of the rule ObjectGroupId, while its scale comes from the
resolved group ActorGroups[GroupIdx]. -/
theorem claim_C10_actor_class (cfg : ArenaConfig) (ru : FArenaSectionBuildRules)
    (st : ArenaState) (hA : ru.AssetToPlace = ETypeToPlace.Actors)
    (h2 : ¬(ru.AssetToPlace = ETypeToPlace.Actors ∧ actorCatalogBad cfg = true)) :
    ∀ p ∈ (buildSection cfg ru st).emitted,
      p ∈ st.emitted ∨ isFirstClassActorSpawn cfg (resolvedMeshScale cfg ru) p := by
  have h1 : ¬(ru.AssetToPlace = ETypeToPlace.StaticMeshes ∧ cfg.MeshGroups.isEmpty = true) := by
    rw [hA]
    simp
  unfold buildSection
  rw [if_neg h1, if_neg h2]
  simp only [hA]
  rw [if_neg (by decide : ¬(ETypeToPlace.Actors = ETypeToPlace.StaticMeshes))]
  cases hsty : ru.SectionType with
  | HorizontalGrid =>
    dsimp only
    intro p hp
    split at hp
    · exact foldl_emit_inv _ _
        (fun s t q hq => foldl_emit_inv _ _
          (fun s2 r q2 hq2 => foldl_emit_inv _ _
            (fun s3 c q3 hq3 => gridCell_emitted_actor cfg _ s3 t r c hA q3 hq3)
            _ _ q2 hq2)
          _ _ q hq)
        _ _ p hp
    · exact foldl_emit_inv _ _
        (fun s t q hq => foldl_emit_inv _ _
          (fun s2 r q2 hq2 => foldl_emit_inv _ _
            (fun s3 c q3 hq3 => gridCell_emitted_actor cfg _ s3 t r c hA q3 hq3)
            _ _ q2 hq2)
          _ _ q hq)
        _ _ p hp
  | Polygon =>
    dsimp only
    intro p hp
    split at hp
    · exact foldl_emit_inv_pair _ _
        (fun a b q hq => polySide_emitted_actor cfg _ _ _ a b hA q hq) _ _ p hp
    · exact foldl_emit_inv_pair _ _
        (fun a b q hq => polySide_emitted_actor cfg _ _ _ a b hA q hq) _ _ p hp

end ArenaGen

namespace ArenaGen

/-- Evaluation of the one-cell Actors grid run: the resolved group is
actor group 1 (dimensions 200, scale 2), but the spawned class is class 7,
the first class of actor group 0. -/
theorem buildActors_emitted_eval :
    (buildSection cfgActors ruleActors1 (stDirect 0 ⟨200, 200, 200⟩)).emitted =
      [⟨⟨0, 0, 0⟩, ⟨-100, -100, 0⟩, ⟨2, 2, 2⟩, PlacePayload.actor 7⟩] := by
  have hr1 : List.range 1 = [0] := rfl
  simp [buildSection, gridCell, emitMesh, emitActor, drawRotation, registerMeshGroup,
    updateOriginOffset, cellOriginType, getMG, getAG, resolvedGroupIdx, resolvedMeshSize,
    resolvedMeshScale, actorCatalogBad, spawnedActorClass, cfgActors, mgCube, mgBig,
    agFirst, agSecond, ruleActors1, ruleYP4, iclamp, OffsetMeshToCenter, OriginOffsetScalar,
    stDirect, st0, hr1]
  norm_num [FVec3.ext_iff, FRot.ext_iff]

/-- Witness for C10: in the concrete Actors run, the single emitted
placement is an actor spawn of class 7 = ActorGroups[0].ClassesToSpawn[0]
with the scale of the resolved group 1. -/
theorem claim_C10_actor_class_witness :
    (buildSection cfgActors ruleActors1 (stDirect 0 ⟨200, 200, 200⟩)).emitted =
      [⟨⟨0, 0, 0⟩, ⟨-100, -100, 0⟩, ⟨2, 2, 2⟩, PlacePayload.actor 7⟩] ∧
    ((⟨⟨0, 0, 0⟩, ⟨-100, -100, 0⟩, ⟨2, 2, 2⟩, PlacePayload.actor 7⟩ : PlacementTransform) ∈
        (stDirect 0 ⟨200, 200, 200⟩).emitted ∨
      isFirstClassActorSpawn cfgActors (resolvedMeshScale cfgActors ruleActors1)
        ⟨⟨0, 0, 0⟩, ⟨-100, -100, 0⟩, ⟨2, 2, 2⟩, PlacePayload.actor 7⟩) := by
  refine ⟨buildActors_emitted_eval, ?_⟩
  exact claim_C10_actor_class cfgActors ruleActors1 (stDirect 0 ⟨200, 200, 200⟩) rfl
    (by simp [actorCatalogBad, cfgActors, agFirst])
    ⟨⟨0, 0, 0⟩, ⟨-100, -100, 0⟩, ⟨2, 2, 2⟩, PlacePayload.actor 7⟩
    (by rw [buildActors_emitted_eval]; exact List.mem_singleton_self _)

end ArenaGen
